import Mathlib

/-!
# libgbinder: the Remote Request (`src/gbinder_remote_request.c`)

A shallow embedding of `gbinder_remote_request.c`.  The request structure is a
Lean structure, every C function of the file is a Lean function of the same
name, and the C heap is replaced by an explicit `Heap` value that records, in
order, every release, every allocation made on behalf of the request and every
invocation of the RPC header protocol.

Machine integers are naturals or integers with explicit reduction: `gsize` is
64 bits wide, `pid_t` is a signed and `uid_t` an unsigned 32-bit integer, and
`gint` (the reference count) is a signed 32-bit integer.

The Parcel Reader (`gbinder_reader.c`), the buffer (`gbinder_buffer.c`) and
the protocol implementations (`gbinder_rpc_protocol.c`) are not part of the
source at hand.  The typed reader operations and the protocol are taken as
parameters; `gbinder_reader_init`, `gbinder_reader_bytes_read` and the release
functions are modelled from the specification and marked so.
-/

namespace GBinder

/-! ## Machine arithmetic -/

/-- Number of values of a `gsize` (64-bit unsigned). -/
def GSIZE_MOD : Nat := 2 ^ 64

/-- Unsigned `gsize` subtraction `a - b`, which wraps around modulo `2^64`. -/
def gsize_sub (a b : Nat) : Nat := (a + GSIZE_MOD - b % GSIZE_MOD) % GSIZE_MOD

/-- Conversion of an integer to `uid_t` (unsigned 32-bit): `(uid_t)(x)`. -/
def to_uid_t (x : Int) : Nat := (x % 2 ^ 32).toNat

/-- Conversion of an unsigned 32-bit value to `pid_t` (signed 32-bit). -/
def to_pid_t (u : Nat) : Int :=
  if u % 2 ^ 32 < 2 ^ 31 then ((u % 2 ^ 32 : Nat) : Int) else ((u % 2 ^ 32 : Nat) : Int) - 2 ^ 32

/-- Conversion of an integer to `gint` (signed 32-bit, two's complement). -/
def to_gint (x : Int) : Int := (x + 2 ^ 31) % 2 ^ 32 - 2 ^ 31

/-- Reading a 32-bit memory cell as a `gint32`. -/
def as_int32 (cell : Nat) : Int := to_pid_t cell

/-- Reading a 64-bit memory cell as a `gint64`. -/
def as_int64 (cell : Nat) : Int :=
  if cell % 2 ^ 64 < 2 ^ 63 then ((cell % 2 ^ 64 : Nat) : Int) else ((cell % 2 ^ 64 : Nat) : Int) - 2 ^ 64

/-! ## Data model -/

/-- A received buffer (`GBinderBuffer`): the identity of the allocation, its
bytes and its `size` field. -/
structure GBinderBuffer where
  id : Nat
  data : List Nat
  size : Nat
  deriving DecidableEq, Repr

/-- The out-of-line object table (`void** objects`): the identity of the
allocation and, for each embedded object, its offset in the buffer and the
handle it names. -/
structure GBinderObjects where
  id : Nat
  entries : List (Nat × Nat)
  deriving DecidableEq, Repr

/-- The data shared by all readers of one request (`GBinderReaderData`):
buffer, object table, and the object registry (named by its identity). -/
structure GBinderReaderData where
  buffer : Option GBinderBuffer
  objects : Option GBinderObjects
  reg : Option Nat
  deriving DecidableEq, Repr

/-- A cursor (`GBinderReader`): the shared data it borrows, the offset it was
initialised at, the length it was initialised with, and the number of bytes
consumed so far. -/
structure GBinderReader where
  data : Option GBinderReaderData
  offset : Nat
  len : Nat
  pos : Nat
  deriving DecidableEq, Repr

/-- Modelled from the spec: `gbinder_reader_init` of the absent
`gbinder_reader.c`; `init(data, header_offset, length)` establishes a cursor
over `data.buffer[header_offset : header_offset+length)` with nothing read. -/
def gbinder_reader_init (data : Option GBinderReaderData) (offset len : Nat) : GBinderReader :=
  { data := data, offset := offset, len := len, pos := 0 }

/-- Modelled from the spec: `gbinder_reader_bytes_read` of the absent
`gbinder_reader.c`; it reports the cursor's progress. -/
def gbinder_reader_bytes_read (reader : GBinderReader) : Nat := reader.pos

/-- A remote object proxy (`struct gbinder_remote_object` of
`gbinder_remote_object_p.h`): owning IPC context, handle, liveness flag. -/
structure GBinderRemoteObject where
  ipc : Nat
  handle : Nat
  dead : Bool
  deriving DecidableEq, Repr

/-- The typed reads of the Parcel Reader, taken as parameters.  A numeric read
receives the cursor and the content of the caller's value cell and yields the
`gboolean` result and the content of the cell afterwards; the other reads
yield the string or object read, or nothing.  The cursors handed to them by
the request are local variables that are dropped right after the read. -/
structure GBinderReaderOps where
  read_uint32 : GBinderReader → Nat → Bool × Nat
  read_uint64 : GBinderReader → Nat → Bool × Nat
  read_string8 : GBinderReader → Option String
  read_string16 : GBinderReader → Option String
  read_object : GBinderReader → Option GBinderRemoteObject

/-- What a protocol does to the owned-string slot `char** iface` it is handed:
it leaves it as it is, stores `NULL`, or stores a freshly allocated string. -/
inductive SlotWrite where
  | untouched
  | null
  | fresh
  deriving DecidableEq, Repr

/-- The outcome of `read_rpc_header(reader, &iface2)`: the returned name
(`NULL` is `none`), the effect on the slot, and the cursor as the protocol
left it. -/
structure RpcHeader where
  iface : Option String
  slot : SlotWrite
  reader : GBinderReader
  deriving DecidableEq, Repr

/-- An RPC header protocol (`GBinderRpcProtocol`), a stateless strategy. -/
structure GBinderRpcProtocol where
  read_rpc_header : GBinderReader → RpcHeader

/-- The request (`struct gbinder_remote_request`).  `iface2` is the identity of
the string allocation the slot points to; the C code never clears it. -/
structure GBinderRemoteRequest where
  refcount : Int
  pid : Int
  euid : Nat
  protocol : GBinderRpcProtocol
  iface : Option String
  iface2 : Option Nat
  header_size : Nat
  data : GBinderReaderData

/-! ## The heap as a trace -/

/-- What the request does to the world around it. -/
inductive Event where
  | buffer_free (b : GBinderBuffer)
  | objects_free (o : GBinderObjects)
  | string_alloc (id : Nat)
  | string_free (id : Nat)
  | slice_free
  | registry_ref (reg : Nat)
  | registry_unref (reg : Nat)
  | read_rpc_header (reader : GBinderReader)
  deriving DecidableEq, Repr

/-- The heap: the events so far, oldest first, and the identity the next
string allocation will get. -/
structure Heap where
  trace : List Event
  next : Nat
  deriving DecidableEq, Repr

/-- Appending one event to the trace. -/
def Heap.emit (h : Heap) (e : Event) : Heap := { h with trace := h.trace ++ [e] }

/-- Modelled from the spec: `gbinder_buffer_free` of the absent
`gbinder_buffer.c`; releases the buffer, nothing to do for `NULL`. -/
def gbinder_buffer_free (buffer : Option GBinderBuffer) (h : Heap) : Heap :=
  match buffer with
  | some b => h.emit (Event.buffer_free b)
  | none => h

/-- GLib's `g_free` applied to an object table; nothing to do for `NULL`. -/
def g_free_objects (objects : Option GBinderObjects) (h : Heap) : Heap :=
  match objects with
  | some o => h.emit (Event.objects_free o)
  | none => h

/-- GLib's `g_free` applied to a string; nothing to do for `NULL`. -/
def g_free_string (s : Option Nat) (h : Heap) : Heap :=
  match s with
  | some id => h.emit (Event.string_free id)
  | none => h

/-- Modelled from the spec: `gbinder_object_registry_ref` of the absent
registry; takes one reference, nothing to do for `NULL`. -/
def gbinder_object_registry_ref (reg : Option Nat) (h : Heap) : Heap :=
  match reg with
  | some g => h.emit (Event.registry_ref g)
  | none => h

/-- Modelled from the spec: `gbinder_object_registry_unref` of the absent
registry; drops one reference, nothing to do for `NULL`. -/
def gbinder_object_registry_unref (reg : Option Nat) (h : Heap) : Heap :=
  match reg with
  | some g => h.emit (Event.registry_unref g)
  | none => h

/-- The call `self->protocol->read_rpc_header(&reader, &self->iface2)`: the
invocation is recorded, and the slot is left alone, cleared, or pointed at a
string allocated now. -/
def call_read_rpc_header (protocol : GBinderRpcProtocol) (reader : GBinderReader)
    (slot : Option Nat) (h : Heap) : RpcHeader × Option Nat × Heap :=
  let h1 := h.emit (Event.read_rpc_header reader)
  let res := protocol.read_rpc_header reader
  match res.slot with
  | SlotWrite.untouched => (res, slot, h1)
  | SlotWrite.null => (res, none, h1)
  | SlotWrite.fresh =>
    (res, some h1.next, { (h1.emit (Event.string_alloc h1.next)) with next := h1.next + 1 })

/-! ## The functions of `gbinder_remote_request.c` -/

/-- The function `gbinder_remote_request_new`. -/
def gbinder_remote_request_new (reg : Option Nat) (protocol : GBinderRpcProtocol)
    (pid : Int) (euid : Nat) (h : Heap) : GBinderRemoteRequest × Heap :=
  ({ refcount := 1
     pid := pid
     euid := euid
     protocol := protocol
     iface := none
     iface2 := none
     header_size := 0
     data := { buffer := none, objects := none, reg := reg } },
   gbinder_object_registry_ref reg h)

/-- The function `gbinder_remote_request_free`. -/
def gbinder_remote_request_free (self : GBinderRemoteRequest) (h : Heap) : Heap :=
  let h := gbinder_object_registry_unref self.data.reg h
  let h := gbinder_buffer_free self.data.buffer h
  let h := g_free_objects self.data.objects h
  let h := g_free_string self.iface2 h
  h.emit Event.slice_free

/-- The function `gbinder_remote_request_init_reader2`; the caller has already
checked the request for `NULL`. -/
def gbinder_remote_request_init_reader2 (self : GBinderRemoteRequest) : GBinderReader :=
  match self.data.buffer with
  | some buffer =>
    gbinder_reader_init (some self.data) self.header_size (gsize_sub buffer.size self.header_size)
  | none => gbinder_reader_init (some self.data) 0 0

/-- The function `gbinder_remote_request_set_data`. -/
def gbinder_remote_request_set_data (self : Option GBinderRemoteRequest)
    (buffer : Option GBinderBuffer) (objects : Option GBinderObjects) (h : Heap) :
    Option GBinderRemoteRequest × Heap :=
  match self with
  | some self =>
    let h := g_free_string self.iface2 h
    let h := g_free_objects self.data.objects h
    let h := gbinder_buffer_free self.data.buffer h
    let self := { self with data := { self.data with buffer := buffer, objects := objects } }
    let self := { self with header_size := 0 }
    let reader := gbinder_remote_request_init_reader2 self
    let out := call_read_rpc_header self.protocol reader self.iface2 h
    let self := { self with iface := out.1.iface, iface2 := out.2.1 }
    let self := { self with header_size := gbinder_reader_bytes_read out.1.reader }
    (some self, out.2.2)
  | none =>
    let h := gbinder_buffer_free buffer h
    let h := g_free_objects objects h
    (none, h)

/-- The function `gbinder_remote_request_interface`. -/
def gbinder_remote_request_interface (self : Option GBinderRemoteRequest) : Option String :=
  match self with
  | some self => self.iface
  | none => none

/-- The function `gbinder_remote_request_ref`: the returned pointer is the
argument, and the count of a present request is incremented.  The `GASSERT` on
the count is a check of debug builds and has no effect on the result. -/
def gbinder_remote_request_ref (self : Option GBinderRemoteRequest) :
    Option GBinderRemoteRequest :=
  match self with
  | some self => some { self with refcount := to_gint (self.refcount + 1) }
  | none => none

/-- The function `gbinder_remote_request_unref`: the request that remains
(`none` when the argument was `NULL` or the request was freed) and the heap.
The count is decremented and the request is freed when it has reached 0. -/
def gbinder_remote_request_unref (self : Option GBinderRemoteRequest) (h : Heap) :
    Option GBinderRemoteRequest × Heap :=
  match self with
  | some self =>
    let self := { self with refcount := to_gint (self.refcount - 1) }
    if self.refcount = 0 then (none, gbinder_remote_request_free self h)
    else (some self, h)
  | none => (none, h)

/-- The function `gbinder_remote_request_init_reader`. -/
def gbinder_remote_request_init_reader (self : Option GBinderRemoteRequest) : GBinderReader :=
  match self with
  | some self => gbinder_remote_request_init_reader2 self
  | none => gbinder_reader_init none 0 0

/-- The function `gbinder_remote_request_sender_pid`: both arms of the
conditional are converted to the unsigned type of `(uid_t)(-1)` and the result
to `pid_t`. -/
def gbinder_remote_request_sender_pid (self : Option GBinderRemoteRequest) : Int :=
  to_pid_t (match self with
    | some self => to_uid_t self.pid
    | none => to_uid_t (-1))

/-- The function `gbinder_remote_request_sender_euid`. -/
def gbinder_remote_request_sender_euid (self : Option GBinderRemoteRequest) : Nat :=
  match self with
  | some self => self.euid
  | none => to_uid_t (-1)

/-- The function `gbinder_remote_request_read_uint32`; `value` is the content
of the caller's cell, and the result carries the content afterwards. -/
def gbinder_remote_request_read_uint32 (ops : GBinderReaderOps)
    (self : Option GBinderRemoteRequest) (value : Nat) : Bool × Nat :=
  match self with
  | some self => ops.read_uint32 (gbinder_remote_request_init_reader2 self) value
  | none => (false, value)

/-- The function `gbinder_remote_request_read_int32`: the same cell, handed on
through a pointer cast. -/
def gbinder_remote_request_read_int32 (ops : GBinderReaderOps)
    (self : Option GBinderRemoteRequest) (value : Nat) : Bool × Nat :=
  gbinder_remote_request_read_uint32 ops self value

/-- The function `gbinder_remote_request_read_uint64`. -/
def gbinder_remote_request_read_uint64 (ops : GBinderReaderOps)
    (self : Option GBinderRemoteRequest) (value : Nat) : Bool × Nat :=
  match self with
  | some self => ops.read_uint64 (gbinder_remote_request_init_reader2 self) value
  | none => (false, value)

/-- The function `gbinder_remote_request_read_int64`: the same cell, handed on
through a pointer cast. -/
def gbinder_remote_request_read_int64 (ops : GBinderReaderOps)
    (self : Option GBinderRemoteRequest) (value : Nat) : Bool × Nat :=
  gbinder_remote_request_read_uint64 ops self value

/-- The function `gbinder_remote_request_read_string8`. -/
def gbinder_remote_request_read_string8 (ops : GBinderReaderOps)
    (self : Option GBinderRemoteRequest) : Option String :=
  match self with
  | some self => ops.read_string8 (gbinder_remote_request_init_reader2 self)
  | none => none

/-- The function `gbinder_remote_request_read_string16`. -/
def gbinder_remote_request_read_string16 (ops : GBinderReaderOps)
    (self : Option GBinderRemoteRequest) : Option String :=
  match self with
  | some self => ops.read_string16 (gbinder_remote_request_init_reader2 self)
  | none => none

/-- The function `gbinder_remote_request_read_object`. -/
def gbinder_remote_request_read_object (ops : GBinderReaderOps)
    (self : Option GBinderRemoteRequest) : Option GBinderRemoteObject :=
  match self with
  | some self => ops.read_object (gbinder_remote_request_init_reader2 self)
  | none => none

/-! ## Calls on one request pointer -/

/-- The request pointer a caller holds: `NULL`, a live request, or a request
that has been freed. -/
inductive Handle where
  | null
  | live (r : GBinderRemoteRequest)
  | freed

/-- The system around one request pointer: the pointer and the heap. -/
structure Sys where
  self : Handle
  heap : Heap

/-- The calls of the public interface of `gbinder_remote_request.c`. -/
inductive Call where
  | set_data (buffer : Option GBinderBuffer) (objects : Option GBinderObjects)
  | interface
  | ref
  | unref
  | init_reader
  | sender_pid
  | sender_euid
  | read_int32 (value : Nat)
  | read_uint32 (value : Nat)
  | read_int64 (value : Nat)
  | read_uint64 (value : Nat)
  | read_string8
  | read_string16
  | read_object
  deriving DecidableEq, Repr

/-- What a call returns to its caller. -/
inductive Ret where
  | unit
  | name (s : Option String)
  | pointer (present : Bool)
  | reader (r : GBinderReader)
  | pid (p : Int)
  | uid (u : Nat)
  | num (r : Bool × Nat)
  | str (s : Option String)
  | obj (o : Option GBinderRemoteObject)
  deriving DecidableEq, Repr

/-- The six scalar and string reads. -/
def Call.is_scalar_or_string_read : Call → Bool
  | Call.read_int32 _ => true
  | Call.read_uint32 _ => true
  | Call.read_int64 _ => true
  | Call.read_uint64 _ => true
  | Call.read_string8 => true
  | Call.read_string16 => true
  | _ => false

/-- The payload reads: the six scalar and string reads, `read_object` and
`init_reader`. -/
def Call.is_read : Call → Bool
  | Call.read_object => true
  | Call.init_reader => true
  | c => c.is_scalar_or_string_read

/-- One call on a pointer that is `NULL` (`none`) or live: the returned value,
the request that remains behind the pointer, and the heap. -/
def call (ops : GBinderReaderOps) (c : Call) (self : Option GBinderRemoteRequest) (h : Heap) :
    Ret × Option GBinderRemoteRequest × Heap :=
  match c with
  | Call.set_data buffer objects =>
    let out := gbinder_remote_request_set_data self buffer objects h
    (Ret.unit, out.1, out.2)
  | Call.interface => (Ret.name (gbinder_remote_request_interface self), self, h)
  | Call.ref =>
    let out := gbinder_remote_request_ref self
    (Ret.pointer out.isSome, out, h)
  | Call.unref =>
    let out := gbinder_remote_request_unref self h
    (Ret.unit, out.1, out.2)
  | Call.init_reader => (Ret.reader (gbinder_remote_request_init_reader self), self, h)
  | Call.sender_pid => (Ret.pid (gbinder_remote_request_sender_pid self), self, h)
  | Call.sender_euid => (Ret.uid (gbinder_remote_request_sender_euid self), self, h)
  | Call.read_int32 v => (Ret.num (gbinder_remote_request_read_int32 ops self v), self, h)
  | Call.read_uint32 v => (Ret.num (gbinder_remote_request_read_uint32 ops self v), self, h)
  | Call.read_int64 v => (Ret.num (gbinder_remote_request_read_int64 ops self v), self, h)
  | Call.read_uint64 v => (Ret.num (gbinder_remote_request_read_uint64 ops self v), self, h)
  | Call.read_string8 => (Ret.str (gbinder_remote_request_read_string8 ops self), self, h)
  | Call.read_string16 => (Ret.str (gbinder_remote_request_read_string16 ops self), self, h)
  | Call.read_object => (Ret.obj (gbinder_remote_request_read_object ops self), self, h)

/-- One call on a system.  A call through a pointer to a freed request has no
defined behaviour and yields nothing. -/
def step (ops : GBinderReaderOps) (c : Call) (s : Sys) : Option (Ret × Sys) :=
  match s.self with
  | Handle.freed => none
  | Handle.null =>
    let out := call ops c none s.heap
    some (out.1, { self := Handle.null, heap := out.2.2 })
  | Handle.live r =>
    let out := call ops c (some r) s.heap
    match out.2.1 with
    | some r1 => some (out.1, { self := Handle.live r1, heap := out.2.2 })
    | none => some (out.1, { self := Handle.freed, heap := out.2.2 })

/-- A sequence of calls, first to last: the values returned and the final
system, or nothing when a call went through a pointer to a freed request. -/
def run (ops : GBinderReaderOps) : List Call → Sys → Option (List Ret × Sys)
  | [], s => some ([], s)
  | c :: cs, s =>
    match step ops c s with
    | none => none
    | some (ret, s1) =>
      match run ops cs s1 with
      | none => none
      | some (rets, s2) => some (ret :: rets, s2)

/-- The system right after `gbinder_remote_request_new` on a given heap. -/
def Sys.new (reg : Option Nat) (protocol : GBinderRpcProtocol) (pid : Int) (euid : Nat)
    (h : Heap) : Sys :=
  let out := gbinder_remote_request_new reg protocol pid euid h
  { self := Handle.live out.1, heap := out.2 }

/-- The heap before anything happened. -/
def Heap.empty : Heap := { trace := [], next := 0 }

/-- The cursors the protocol was invoked on, oldest first. -/
def rpc_calls (t : List Event) : List GBinderReader :=
  t.filterMap fun e =>
    match e with
    | Event.read_rpc_header r => some r
    | _ => none

/-! ## A concrete Parcel Reader and two concrete protocols

They instantiate the parameters above on concrete inputs.  The host is taken to
be little-endian. -/

/-- The value of a little-endian sequence of bytes. -/
def le_value : List Nat → Nat
  | [] => 0
  | b :: bs => b % 256 + 256 * le_value bs

/-- The next `n` bytes under the cursor: present when `n` bytes remain within
the length the cursor was initialised with and within the buffer. -/
def cursor_bytes (r : GBinderReader) (n : Nat) : Option (List Nat) :=
  match r.data with
  | none => none
  | some d =>
    match d.buffer with
    | none => none
    | some b =>
      if r.pos + n ≤ r.len ∧ r.offset + r.pos + n ≤ b.data.length then
        some ((b.data.drop (r.offset + r.pos)).take n)
      else none

/-- The cursor moved forward by `n` bytes. -/
def advance (r : GBinderReader) (n : Nat) : GBinderReader := { r with pos := r.pos + n }

/-- Rounding a byte count up to the next multiple of four. -/
def pad4 (n : Nat) : Nat := (n + 3) / 4 * 4

/-- Modelled from the spec: the 32-bit read of the absent `gbinder_reader.c`;
it fails when fewer than four bytes remain and consumes four otherwise. -/
def sample_read_u32 (r : GBinderReader) : Option (Nat × GBinderReader) :=
  match cursor_bytes r 4 with
  | some bs => some (le_value bs, advance r 4)
  | none => none

/-- Modelled from the spec: the 64-bit read of the absent `gbinder_reader.c`;
it fails when fewer than eight bytes remain and consumes eight otherwise. -/
def sample_read_u64 (r : GBinderReader) : Option (Nat × GBinderReader) :=
  match cursor_bytes r 8 with
  | some bs => some (le_value bs, advance r 8)
  | none => none

/-- Modelled from the spec: the 8-bit string read of the absent
`gbinder_reader.c`; a 4-byte length, a negative length meaning an absent
string, then the bytes and their padding; it fails when the declared length
exceeds what remains. -/
def sample_read_str8 (r : GBinderReader) : Option (String × GBinderReader) :=
  match sample_read_u32 r with
  | none => none
  | some (n, r1) =>
    if n < 2 ^ 31 then
      match cursor_bytes r1 (pad4 n) with
      | some bs => some (String.mk ((bs.take n).map Char.ofNat), advance r1 (pad4 n))
      | none => none
    else none

/-- The code units of a little-endian sequence of byte pairs. -/
def le_units : List Nat → List Nat
  | a :: b :: rest => (a % 256 + 256 * (b % 256)) :: le_units rest
  | _ => []

/-- Modelled from the spec: the 16-bit string read of the absent
`gbinder_reader.c`; a 4-byte count of code units, a negative count meaning an
absent string, then twice that many bytes and their padding. -/
def sample_read_str16 (r : GBinderReader) : Option (String × GBinderReader) :=
  match sample_read_u32 r with
  | none => none
  | some (n, r1) =>
    if n < 2 ^ 31 then
      match cursor_bytes r1 (pad4 (2 * n)) with
      | some bs => some (String.mk ((le_units (bs.take (2 * n))).map Char.ofNat),
          advance r1 (pad4 (2 * n)))
      | none => none
    else none

/-- Modelled from the spec: the object read of the absent `gbinder_reader.c`;
it succeeds when the object table has an entry at the cursor's position. -/
def sample_read_obj (r : GBinderReader) : Option GBinderRemoteObject :=
  match r.data with
  | none => none
  | some d =>
    match d.objects with
    | none => none
    | some o =>
      match o.entries.find? (fun e => e.1 = r.offset + r.pos) with
      | some e => some { ipc := d.reg.getD 0, handle := e.2, dead := false }
      | none => none

/-- The concrete reads packaged as the parameter of the request's reads; a
failed numeric read leaves the caller's cell as it was. -/
def sample_ops : GBinderReaderOps where
  read_uint32 := fun r v =>
    match sample_read_u32 r with
    | some x => (true, x.1)
    | none => (false, v)
  read_uint64 := fun r v =>
    match sample_read_u64 r with
    | some x => (true, x.1)
    | none => (false, v)
  read_string8 := fun r => (sample_read_str8 r).map Prod.fst
  read_string16 := fun r => (sample_read_str16 r).map Prod.fst
  read_object := sample_read_obj

/-- Parsing of the header of the specification's scenario: four marker bytes,
then the interface name as an 8-bit string.  The name, when there is one, and
the cursor where parsing stopped. -/
def sample_header (r : GBinderReader) : Option String × GBinderReader :=
  match sample_read_u32 r with
  | none => (none, r)
  | some (_, r1) =>
    match sample_read_str8 r1 with
    | none => (none, r1)
    | some (name, r2) => (some name, r2)

/-- A protocol that writes the slot on every invocation: a fresh copy of the
name when the header parses, `NULL` when it does not. -/
def sample_protocol : GBinderRpcProtocol where
  read_rpc_header := fun r =>
    match sample_header r with
    | (some name, r1) => { iface := some name, slot := SlotWrite.fresh, reader := r1 }
    | (none, r1) => { iface := none, slot := SlotWrite.null, reader := r1 }

/-- A protocol that writes the slot only when the header parses and returns
early, the slot untouched, when it does not. -/
def early_return_protocol : GBinderRpcProtocol where
  read_rpc_header := fun r =>
    match sample_header r with
    | (some name, r1) => { iface := some name, slot := SlotWrite.fresh, reader := r1 }
    | (none, r1) => { iface := none, slot := SlotWrite.untouched, reader := r1 }

/-- The buffer of the specification's scenario: marker, length 3, the bytes of
`foo` and one byte of padding, then the 32-bit integer 42. -/
def scenario_buffer : GBinderBuffer :=
  { id := 1
    data := [0x2a, 0x2a, 0x2a, 0x2a, 3, 0, 0, 0, 102, 111, 111, 0, 42, 0, 0, 0]
    size := 16 }

/-- An object table with no entries. -/
def scenario_objects : GBinderObjects := { id := 1, entries := [] }

/-- A buffer too short to hold a header. -/
def short_buffer : GBinderBuffer := { id := 2, data := [], size := 0 }

/-- A second object table with no entries. -/
def short_objects : GBinderObjects := { id := 2, entries := [] }

/-- A buffer that holds the marker and nothing more. -/
def marker_buffer : GBinderBuffer := { id := 3, data := [0x2a, 0x2a, 0x2a, 0x2a], size := 4 }

/-- A request as `gbinder_remote_request_new` makes it, with the protocol that
always writes the slot. -/
def fresh_request : GBinderRemoteRequest :=
  (gbinder_remote_request_new (some 9) sample_protocol 100 1000 Heap.empty).1

/-- The heap right after that request was made. -/
def fresh_heap : Heap :=
  (gbinder_remote_request_new (some 9) sample_protocol 100 1000 Heap.empty).2

/-- The request of the specification's scenario, its buffer attached and its
header parsed: interface `foo`, header length 12. -/
def scenario_request : GBinderRemoteRequest :=
  { refcount := 1
    pid := 100
    euid := 1000
    protocol := sample_protocol
    iface := some "foo"
    iface2 := some 0
    header_size := 12
    data := { buffer := some scenario_buffer, objects := some scenario_objects, reg := some 9 } }

/-- A `set_data` call hands over a buffer whose size is a `gsize`. -/
def Call.buffer_fits : Call → Bool
  | Call.set_data (some b) _ => decide (b.size < GSIZE_MOD)
  | _ => true

/-- The cursor over the whole of a buffer: offset 0, length the buffer's size,
over the request's shared data once the buffer and table are attached. -/
def whole_buffer_reader (reg : Option Nat) (buffer : GBinderBuffer)
    (objects : Option GBinderObjects) : GBinderReader :=
  gbinder_reader_init (some { buffer := some buffer, objects := objects, reg := reg }) 0 buffer.size

/-- The cursor with no buffer behind it: offset 0 and length 0 over the
request's shared data, which hold neither buffer nor table. -/
def empty_reader (reg : Option Nat) : GBinderReader :=
  gbinder_reader_init (some { buffer := none, objects := none, reg := reg }) 0 0

/-! ## Resource accounting -/

/-- The buffers handed over by the `set_data` calls of a sequence, in order. -/
def handed_buffers : List Call → List GBinderBuffer
  | [] => []
  | Call.set_data (some b) _ :: cs => b :: handed_buffers cs
  | _ :: cs => handed_buffers cs

/-- The object tables handed over by the `set_data` calls of a sequence, in
order. -/
def handed_tables : List Call → List GBinderObjects
  | [] => []
  | Call.set_data _ (some o) :: cs => o :: handed_tables cs
  | _ :: cs => handed_tables cs

/-- A protocol that writes the owned-string slot on every invocation. -/
def always_writes_slot (p : GBinderRpcProtocol) : Prop :=
  ∀ rd : GBinderReader, (p.read_rpc_header rd).slot ≠ SlotWrite.untouched

/-- A protocol that never writes the owned-string slot. -/
def never_writes_slot (p : GBinderRpcProtocol) : Prop :=
  ∀ rd : GBinderReader, (p.read_rpc_header rd).slot = SlotWrite.untouched

/-- Accounting of one kind of resource.  Of the resources handed over so far
the one still held has not been released, every other one has been released
exactly once, and nothing else has been released at all. -/
def Accounted {α : Type} (handed : α → Prop) (held : Option α) (released : α → Nat) : Prop :=
  (∀ x, held = some x → handed x) ∧
  (∀ x, handed x → held ≠ some x → released x = 1) ∧
  (∀ x, held = some x → released x = 0) ∧
  (∀ x, ¬ handed x → released x = 0)

/-- Accounting of buffers, object tables and owned strings on a heap, given
what was handed over and what is held. -/
def Balanced (Bs : List GBinderBuffer) (Os : List GBinderObjects)
    (held_b : Option GBinderBuffer) (held_o : Option GBinderObjects) (held_s : Option Nat)
    (h : Heap) : Prop :=
  Accounted (fun B => B ∈ Bs) held_b (fun B => h.trace.count (Event.buffer_free B)) ∧
  Accounted (fun O => O ∈ Os) held_o (fun O => h.trace.count (Event.objects_free O)) ∧
  Accounted (fun id => id < h.next) held_s (fun id => h.trace.count (Event.string_free id)) ∧
  (∀ id, id < h.next → h.trace.count (Event.string_alloc id) = 1) ∧
  (∀ id, ¬ id < h.next → h.trace.count (Event.string_alloc id) = 0)

/-- The accounting invariant of a system in which a live request follows a
given protocol: a live request holds what has not been released and has not
been freed; a freed request holds nothing and has been freed once. -/
def SysBalanced (p : GBinderRpcProtocol) (Bs : List GBinderBuffer) (Os : List GBinderObjects)
    (s : Sys) : Prop :=
  match s.self with
  | Handle.null => True
  | Handle.live r =>
    r.protocol = p ∧ (never_writes_slot p → r.iface2 = none) ∧
    Balanced Bs Os r.data.buffer r.data.objects r.iface2 s.heap ∧
    s.heap.trace.count Event.slice_free = 0
  | Handle.freed =>
    Balanced Bs Os none none none s.heap ∧ s.heap.trace.count Event.slice_free = 1

/-! ## Auxiliary facts -/

theorem gsize_sub_zero (a : Nat) (ha : a < GSIZE_MOD) : gsize_sub a 0 = a := by
  unfold gsize_sub GSIZE_MOD at *
  omega

theorem gsize_sub_exact (a b : Nat) (hb : b ≤ a) (ha : a < GSIZE_MOD) :
    gsize_sub a b = a - b := by
  unfold gsize_sub GSIZE_MOD at *
  omega

theorem rpc_calls_append (t u : List Event) : rpc_calls (t ++ u) = rpc_calls t ++ rpc_calls u := by
  simp [rpc_calls, List.filterMap_append]

@[simp] theorem trace_emit (h : Heap) (e : Event) : (h.emit e).trace = h.trace ++ [e] := rfl

@[simp] theorem next_emit (h : Heap) (e : Event) : (h.emit e).next = h.next := rfl

@[simp] theorem rpc_calls_buffer_free (b : Option GBinderBuffer) (h : Heap) :
    rpc_calls (gbinder_buffer_free b h).trace = rpc_calls h.trace := by
  cases b <;> simp [gbinder_buffer_free, rpc_calls, List.filterMap_append]

@[simp] theorem rpc_calls_free_objects (o : Option GBinderObjects) (h : Heap) :
    rpc_calls (g_free_objects o h).trace = rpc_calls h.trace := by
  cases o <;> simp [g_free_objects, rpc_calls, List.filterMap_append]

@[simp] theorem rpc_calls_free_string (x : Option Nat) (h : Heap) :
    rpc_calls (g_free_string x h).trace = rpc_calls h.trace := by
  cases x <;> simp [g_free_string, rpc_calls, List.filterMap_append]

theorem rpc_calls_call (p : GBinderRpcProtocol) (rd : GBinderReader) (slot : Option Nat)
    (h : Heap) :
    rpc_calls (call_read_rpc_header p rd slot h).2.2.trace = rpc_calls h.trace ++ [rd] := by
  unfold call_read_rpc_header
  cases p.read_rpc_header rd with
  | mk iface slot1 rd1 =>
    cases slot1 <;> simp [rpc_calls, List.filterMap_append]

theorem call_fst (p : GBinderRpcProtocol) (rd : GBinderReader) (slot : Option Nat) (h : Heap) :
    (call_read_rpc_header p rd slot h).1 = p.read_rpc_header rd := by
  unfold call_read_rpc_header
  cases p.read_rpc_header rd with
  | mk iface slot1 rd1 => cases slot1 <;> rfl

theorem step_read (ops : GBinderReaderOps) (c : Call) (hc : c.is_read = true)
    (r : GBinderRemoteRequest) (h : Heap) :
    step ops c { self := Handle.live r, heap := h }
      = some ((call ops c (some r) h).1, { self := Handle.live r, heap := h }) := by
  cases c <;> first | rfl | simp [Call.is_read, Call.is_scalar_or_string_read] at hc

theorem run_reads (ops : GBinderReaderOps) (r : GBinderRemoteRequest) (h : Heap) (cs : List Call)
    (hcs : ∀ c ∈ cs, c.is_read = true) :
    run ops cs { self := Handle.live r, heap := h }
      = some (cs.map (fun c => (call ops c (some r) h).1), { self := Handle.live r, heap := h }) := by
  induction cs with
  | nil => rfl
  | cons c cs ih =>
    have hc : c.is_read = true := hcs c (List.mem_cons_self c cs)
    have ih1 := ih (fun c1 hc1 => hcs c1 (List.mem_cons_of_mem c hc1))
    simp [run, step_read ops c hc r h, ih1]

theorem is_read_of_scalar (c : Call) (hc : c.is_scalar_or_string_read = true) :
    c.is_read = true := by
  cases c <;> first | rfl | simp [Call.is_scalar_or_string_read] at hc

theorem set_data_some (r : GBinderRemoteRequest) (b : Option GBinderBuffer)
    (o : Option GBinderObjects) (h : Heap) :
    ∃ r1 : GBinderRemoteRequest,
      (gbinder_remote_request_set_data (some r) b o h).1 = some r1 ∧
      r1.pid = r.pid ∧ r1.euid = r.euid ∧ r1.protocol = r.protocol ∧
      r1.data = { buffer := b, objects := o, reg := r.data.reg } ∧
      r1.iface = (r.protocol.read_rpc_header (gbinder_remote_request_init_reader2
        { r with data := { buffer := b, objects := o, reg := r.data.reg }, header_size := 0 })).iface ∧
      r1.header_size = gbinder_reader_bytes_read
        (r.protocol.read_rpc_header (gbinder_remote_request_init_reader2
          { r with data := { buffer := b, objects := o, reg := r.data.reg },
                   header_size := 0 })).reader := by
  refine ⟨_, rfl, rfl, rfl, rfl, rfl, ?_, ?_⟩
  · simp [gbinder_remote_request_set_data, call_fst]
  · simp [gbinder_remote_request_set_data, call_fst]

theorem init_reader2_no_header (r : GBinderRemoteRequest) (b : GBinderBuffer)
    (o : Option GBinderObjects) (hb : b.size < GSIZE_MOD) :
    gbinder_remote_request_init_reader2
      { r with data := { buffer := some b, objects := o, reg := r.data.reg }, header_size := 0 }
      = whole_buffer_reader r.data.reg b o := by
  simp [gbinder_remote_request_init_reader2, whole_buffer_reader, gsize_sub_zero b.size hb]

theorem init_reader2_no_buffer (r : GBinderRemoteRequest) (o : Option GBinderObjects) (n : Nat) :
    gbinder_remote_request_init_reader2
      { r with data := { buffer := none, objects := o, reg := r.data.reg }, header_size := n }
      = gbinder_reader_init (some { buffer := none, objects := o, reg := r.data.reg }) 0 0 := by
  simp [gbinder_remote_request_init_reader2]

/-- A property of live requests that every call preserves holds in every state
a sequence of calls reaches. -/
theorem run_preserves (ops : GBinderReaderOps) (P : GBinderRemoteRequest → Prop)
    (Q : Call → Prop)
    (hstep : ∀ (c : Call) (r : GBinderRemoteRequest) (h : Heap) (r1 : GBinderRemoteRequest),
      Q c → P r → (call ops c (some r) h).2.1 = some r1 → P r1) :
    ∀ (cs : List Call) (s : Sys) (rets : List Ret) (s1 : Sys),
      (∀ c ∈ cs, Q c) → run ops cs s = some (rets, s1) →
      (∀ r, s.self = Handle.live r → P r) → ∀ r1, s1.self = Handle.live r1 → P r1 := by
  intro cs
  induction cs with
  | nil =>
    intro s rets s1 _ hrun hP r1 hr1
    simp [run] at hrun
    rcases hrun with ⟨_, rfl⟩
    exact hP r1 hr1
  | cons c cs ih =>
    intro s rets s1 hQ hrun hP r1 hr1
    have hQc : Q c := hQ c (List.mem_cons_self c cs)
    have hQcs : ∀ c1 ∈ cs, Q c1 := fun c1 hc1 => hQ c1 (List.mem_cons_of_mem c hc1)
    unfold run at hrun
    cases hst : step ops c s with
    | none => simp [hst] at hrun
    | some out =>
      obtain ⟨ret, s2⟩ := out
      simp only [hst] at hrun
      cases hrest : run ops cs s2 with
      | none => simp [hrest] at hrun
      | some out2 =>
        obtain ⟨rets2, s3⟩ := out2
        simp only [hrest, Option.some.injEq, Prod.mk.injEq] at hrun
        rcases hrun with ⟨_, rfl⟩
        refine ih s2 rets2 s3 hQcs hrest ?_ r1 hr1
        intro r2 hr2
        unfold step at hst
        cases hs : s.self with
        | null =>
          simp [hs] at hst
          rcases hst with ⟨_, rfl⟩
          simp at hr2
        | freed => simp [hs] at hst
        | live r0 =>
          simp only [hs] at hst
          cases hc : (call ops c (some r0) s.heap).2.1 with
          | none =>
            simp [hc] at hst
            rcases hst with ⟨_, rfl⟩
            simp at hr2
          | some r3 =>
            simp [hc] at hst
            rcases hst with ⟨_, rfl⟩
            simp at hr2
            subst hr2
            exact hstep c r0 s.heap r3 hQc (hP r0 hs) hc

theorem call_keeps_credentials (ops : GBinderReaderOps) (c : Call) (r : GBinderRemoteRequest)
    (h : Heap) (r1 : GBinderRemoteRequest) (hc : (call ops c (some r) h).2.1 = some r1) :
    r1.pid = r.pid ∧ r1.euid = r.euid ∧ r1.protocol = r.protocol := by
  cases c with
  | set_data b o =>
    obtain ⟨r2, h2, hp, he, hpr, _⟩ := set_data_some r b o h
    simp only [call] at hc
    rw [h2] at hc
    cases hc
    exact ⟨hp, he, hpr⟩
  | ref =>
    simp [call, gbinder_remote_request_ref] at hc
    subst hc
    exact ⟨rfl, rfl, rfl⟩
  | unref =>
    simp only [call, gbinder_remote_request_unref] at hc
    split at hc
    · simp at hc
    · simp at hc
      subst hc
      exact ⟨rfl, rfl, rfl⟩
  | _ =>
    simp [call] at hc
    subst hc
    exact ⟨rfl, rfl, rfl⟩

theorem pid_round_trip (pid : Int) (h1 : -2 ^ 31 ≤ pid) (h2 : pid < 2 ^ 31) :
    to_pid_t (to_uid_t pid) = pid := by
  unfold to_pid_t to_uid_t
  have h3 : (0 : Int) ≤ pid % 2 ^ 32 := Int.emod_nonneg pid (by norm_num)
  have h4 : pid % 2 ^ 32 < 2 ^ 32 := Int.emod_lt_of_pos pid (by norm_num)
  have h5 : ((pid % 2 ^ 32).toNat : Int) = pid % 2 ^ 32 := Int.toNat_of_nonneg h3
  have h6 : (pid % 2 ^ 32).toNat % 2 ^ 32 = (pid % 2 ^ 32).toNat := by
    apply Nat.mod_eq_of_lt
    omega
  rw [h6]
  split <;> omega

theorem call_keeps_data (ops : GBinderReaderOps) (c : Call) (r : GBinderRemoteRequest)
    (h : Heap) (r1 : GBinderRemoteRequest) (hc : (call ops c (some r) h).2.1 = some r1)
    (hns : ∀ b o, c ≠ Call.set_data b o) :
    r1.data = r.data ∧ r1.header_size = r.header_size ∧ r1.iface = r.iface ∧
      r1.iface2 = r.iface2 := by
  cases c with
  | set_data b o => exact absurd rfl (hns b o)
  | ref =>
    simp [call, gbinder_remote_request_ref] at hc
    subst hc
    exact ⟨rfl, rfl, rfl, rfl⟩
  | unref =>
    simp only [call, gbinder_remote_request_unref] at hc
    split at hc
    · simp at hc
    · simp at hc
      subst hc
      exact ⟨rfl, rfl, rfl, rfl⟩
  | _ =>
    simp [call] at hc
    subst hc
    exact ⟨rfl, rfl, rfl, rfl⟩

/-- The header length stays within the attached buffer under every call, for a
protocol whose cursor never reads past the length it was initialised with. -/
theorem call_keeps_header_within (ops : GBinderReaderOps) (protocol : GBinderRpcProtocol)
    (hproto : ∀ (data : Option GBinderReaderData) (len : Nat),
      gbinder_reader_bytes_read (protocol.read_rpc_header (gbinder_reader_init data 0 len)).reader
        ≤ len)
    (c : Call) (r : GBinderRemoteRequest) (h : Heap) (r1 : GBinderRemoteRequest)
    (hfit : c.buffer_fits = true)
    (hP : r.protocol = protocol ∧
      ∀ B, r.data.buffer = some B → r.header_size ≤ B.size ∧ B.size < GSIZE_MOD)
    (hc : (call ops c (some r) h).2.1 = some r1) :
    r1.protocol = protocol ∧
      ∀ B, r1.data.buffer = some B → r1.header_size ≤ B.size ∧ B.size < GSIZE_MOD := by
  have hcred := call_keeps_credentials ops c r h r1 hc
  refine ⟨hcred.2.2.trans hP.1, ?_⟩
  by_cases hs : ∃ b o, c = Call.set_data b o
  · obtain ⟨b, o, rfl⟩ := hs
    obtain ⟨r2, h2, _, _, _, hd, _, hh⟩ := set_data_some r b o h
    simp only [call] at hc
    rw [h2] at hc
    cases hc
    intro B hB
    rw [hd] at hB
    simp only at hB
    subst hB
    have hsize : B.size < GSIZE_MOD := by
      simpa [Call.buffer_fits] using hfit
    rw [init_reader2_no_header r B o hsize, hP.1] at hh
    rw [hh]
    exact ⟨hproto _ B.size, hsize⟩
  · have hns : ∀ b o, c ≠ Call.set_data b o := fun b o he => hs ⟨b, o, he⟩
    obtain ⟨hd, hh, _, _⟩ := call_keeps_data ops c r h r1 hc hns
    intro B hB
    rw [hd] at hB
    rw [hh]
    exact hP.2 B hB

theorem cursor_bytes_some (r : GBinderReader) (n : Nat) (bs : List Nat)
    (h : cursor_bytes r n = some bs) : r.pos + n ≤ r.len := by
  unfold cursor_bytes at h
  split at h
  · simp at h
  · split at h
    · simp at h
    · split at h
      · rename_i hc
        exact hc.1
      · simp at h

theorem sample_read_u32_some (r : GBinderReader) (x : Nat) (r1 : GBinderReader)
    (h : sample_read_u32 r = some (x, r1)) : r1.len = r.len ∧ r1.pos = r.pos + 4 ∧ r1.pos ≤ r.len := by
  unfold sample_read_u32 at h
  split at h
  · rename_i bs hbs
    have := cursor_bytes_some r 4 bs hbs
    simp only [Option.some.injEq, Prod.mk.injEq] at h
    obtain ⟨_, rfl⟩ := h
    exact ⟨rfl, rfl, this⟩
  · simp at h

theorem sample_read_str8_some (r : GBinderReader) (x : String) (r1 : GBinderReader)
    (h : sample_read_str8 r = some (x, r1)) : r1.len = r.len ∧ r1.pos ≤ r.len := by
  unfold sample_read_str8 at h
  split at h
  · simp at h
  · rename_i n r2 h32
    obtain ⟨hl, _, _⟩ := sample_read_u32_some r n r2 h32
    split at h
    · split at h
      · rename_i bs hbs
        have := cursor_bytes_some r2 _ bs hbs
        simp only [Option.some.injEq, Prod.mk.injEq] at h
        obtain ⟨_, rfl⟩ := h
        simp only [advance]
        rw [← hl]
        exact ⟨rfl, this⟩
      · simp at h
    · simp at h

theorem sample_header_within (r : GBinderReader) (h : r.pos ≤ r.len) :
    (sample_header r).2.pos ≤ r.len := by
  unfold sample_header
  split
  · exact h
  · rename_i x r1 h32
    obtain ⟨hl, _, hp⟩ := sample_read_u32_some r x r1 h32
    split
    · exact hp
    · rename_i name r2 h8
      obtain ⟨_, hp2⟩ := sample_read_str8_some r1 name r2 h8
      rw [hl] at hp2
      exact hp2

theorem sample_protocol_within (data : Option GBinderReaderData) (len : Nat) :
    gbinder_reader_bytes_read
      (sample_protocol.read_rpc_header (gbinder_reader_init data 0 len)).reader ≤ len := by
  have h := sample_header_within (gbinder_reader_init data 0 len) (Nat.zero_le _)
  simp only [sample_protocol, gbinder_reader_bytes_read]
  split
  · rename_i name r1 he
    rw [he] at h
    exact h
  · rename_i r1 he
    rw [he] at h
    exact h

theorem accounted_step {α : Type} (handed handed1 : α → Prop) (held new : Option α)
    (rel rel1 : α → Nat) (hA : Accounted handed held rel)
    (hfresh : ∀ x, new = some x → ¬ handed x)
    (hhanded : ∀ x, handed1 x ↔ handed x ∨ new = some x)
    (hrel : ∀ x, (held = some x → rel1 x = rel x + 1) ∧ (held ≠ some x → rel1 x = rel x)) :
    Accounted handed1 new rel1 := by
  obtain ⟨h1, h2, h3, h4⟩ := hA
  refine ⟨?_, ?_, ?_, ?_⟩
  · intro x hx
    exact (hhanded x).2 (Or.inr hx)
  · intro x hx hn
    have hh : handed x := by
      rcases (hhanded x).1 hx with a | a
      · exact a
      · exact absurd a hn
    by_cases hheld : held = some x
    · rw [(hrel x).1 hheld, h3 x hheld]
    · rw [(hrel x).2 hheld, h2 x hh hheld]
  · intro x hx
    have hnh : ¬ handed x := hfresh x hx
    have hheld : held ≠ some x := fun a => hnh (h1 x a)
    rw [(hrel x).2 hheld, h4 x hnh]
  · intro x hx
    have hnh : ¬ handed x := fun a => hx ((hhanded x).2 (Or.inl a))
    have hheld : held ≠ some x := fun a => hnh (h1 x a)
    rw [(hrel x).2 hheld, h4 x hnh]

theorem handed_buffers_cons (c : Call) (cs : List Call) :
    handed_buffers (c :: cs) = handed_buffers [c] ++ handed_buffers cs := by
  cases c with
  | set_data b o => cases b <;> rfl
  | _ => rfl

theorem handed_tables_cons (c : Call) (cs : List Call) :
    handed_tables (c :: cs) = handed_tables [c] ++ handed_tables cs := by
  cases c with
  | set_data b o => cases o <;> cases b <;> rfl
  | _ => rfl

theorem handed_buffers_other (c : Call) (hns : ∀ b o, c ≠ Call.set_data b o) :
    handed_buffers [c] = [] := by
  cases c with
  | set_data b o => exact absurd rfl (hns b o)
  | _ => rfl

theorem handed_tables_other (c : Call) (hns : ∀ b o, c ≠ Call.set_data b o) :
    handed_tables [c] = [] := by
  cases c with
  | set_data b o => exact absurd rfl (hns b o)
  | _ => rfl

theorem handed_buffers_set_data (b : Option GBinderBuffer) (o : Option GBinderObjects) :
    handed_buffers [Call.set_data b o] = b.toList := by
  cases b <;> rfl

theorem handed_tables_set_data (b : Option GBinderBuffer) (o : Option GBinderObjects) :
    handed_tables [Call.set_data b o] = o.toList := by
  cases o <;> cases b <;> rfl

/-- What `set_data` on a live request does to the heap, event kind by event
kind, and to the slot. -/
theorem set_data_effect (r : GBinderRemoteRequest) (b : Option GBinderBuffer)
    (o : Option GBinderObjects) (h : Heap) :
    ∃ (r1 : GBinderRemoteRequest) (rd : GBinderReader),
      (gbinder_remote_request_set_data (some r) b o h).1 = some r1 ∧
      r1.data.buffer = b ∧ r1.data.objects = o ∧ r1.protocol = r.protocol ∧
      (∀ B, (r.data.buffer = some B →
          (gbinder_remote_request_set_data (some r) b o h).2.trace.count (Event.buffer_free B)
            = h.trace.count (Event.buffer_free B) + 1) ∧
        (r.data.buffer ≠ some B →
          (gbinder_remote_request_set_data (some r) b o h).2.trace.count (Event.buffer_free B)
            = h.trace.count (Event.buffer_free B))) ∧
      (∀ O, (r.data.objects = some O →
          (gbinder_remote_request_set_data (some r) b o h).2.trace.count (Event.objects_free O)
            = h.trace.count (Event.objects_free O) + 1) ∧
        (r.data.objects ≠ some O →
          (gbinder_remote_request_set_data (some r) b o h).2.trace.count (Event.objects_free O)
            = h.trace.count (Event.objects_free O))) ∧
      (∀ id, (r.iface2 = some id →
          (gbinder_remote_request_set_data (some r) b o h).2.trace.count (Event.string_free id)
            = h.trace.count (Event.string_free id) + 1) ∧
        (r.iface2 ≠ some id →
          (gbinder_remote_request_set_data (some r) b o h).2.trace.count (Event.string_free id)
            = h.trace.count (Event.string_free id))) ∧
      (gbinder_remote_request_set_data (some r) b o h).2.trace.count Event.slice_free
        = h.trace.count Event.slice_free ∧
      ((r.protocol.read_rpc_header rd).slot = SlotWrite.untouched →
        r1.iface2 = r.iface2 ∧ (gbinder_remote_request_set_data (some r) b o h).2.next = h.next ∧
        ∀ id, (gbinder_remote_request_set_data (some r) b o h).2.trace.count (Event.string_alloc id)
          = h.trace.count (Event.string_alloc id)) ∧
      ((r.protocol.read_rpc_header rd).slot = SlotWrite.null →
        r1.iface2 = none ∧ (gbinder_remote_request_set_data (some r) b o h).2.next = h.next ∧
        ∀ id, (gbinder_remote_request_set_data (some r) b o h).2.trace.count (Event.string_alloc id)
          = h.trace.count (Event.string_alloc id)) ∧
      ((r.protocol.read_rpc_header rd).slot = SlotWrite.fresh →
        r1.iface2 = some h.next ∧
        (gbinder_remote_request_set_data (some r) b o h).2.next = h.next + 1 ∧
        (gbinder_remote_request_set_data (some r) b o h).2.trace.count (Event.string_alloc h.next)
          = h.trace.count (Event.string_alloc h.next) + 1 ∧
        ∀ id, id ≠ h.next →
          (gbinder_remote_request_set_data (some r) b o h).2.trace.count (Event.string_alloc id)
            = h.trace.count (Event.string_alloc id)) := by
  obtain ⟨rc, pid, euid, p, iface, iface2, hsz, ⟨buf, objs, reg⟩⟩ := r
  refine ⟨_, gbinder_remote_request_init_reader2
    { refcount := rc, pid := pid, euid := euid, protocol := p, iface := iface, iface2 := iface2,
      header_size := 0, data := { buffer := b, objects := o, reg := reg } },
    rfl, rfl, rfl, rfl, ?_, ?_, ?_, ?_, ?_, ?_, ?_⟩
  · intro B
    simp only [gbinder_remote_request_set_data, call_read_rpc_header]
    cases iface2 <;> cases objs <;> cases buf <;> cases hs : (p.read_rpc_header _).slot <;>
      simp [hs, gbinder_buffer_free, g_free_objects, g_free_string, Heap.emit,
        List.count_append, List.count_cons, List.count_singleton]
  · intro O
    simp only [gbinder_remote_request_set_data, call_read_rpc_header]
    cases iface2 <;> cases objs <;> cases buf <;> cases hs : (p.read_rpc_header _).slot <;>
      simp [hs, gbinder_buffer_free, g_free_objects, g_free_string, Heap.emit,
        List.count_append, List.count_cons, List.count_singleton]
  · intro id
    simp only [gbinder_remote_request_set_data, call_read_rpc_header]
    cases iface2 <;> cases objs <;> cases buf <;> cases hs : (p.read_rpc_header _).slot <;>
      simp [hs, gbinder_buffer_free, g_free_objects, g_free_string, Heap.emit,
        List.count_append, List.count_cons, List.count_singleton]
  · simp only [gbinder_remote_request_set_data, call_read_rpc_header]
    cases iface2 <;> cases objs <;> cases buf <;> cases hs : (p.read_rpc_header _).slot <;>
      simp [hs, gbinder_buffer_free, g_free_objects, g_free_string, Heap.emit,
        List.count_append, List.count_cons, List.count_singleton]
  · simp only [gbinder_remote_request_set_data, call_read_rpc_header]
    cases iface2 <;> cases objs <;> cases buf <;> intro hs <;>
      simp [hs, gbinder_buffer_free, g_free_objects, g_free_string, Heap.emit,
        List.count_append, List.count_cons, List.count_singleton]
  · simp only [gbinder_remote_request_set_data, call_read_rpc_header]
    cases iface2 <;> cases objs <;> cases buf <;> intro hs <;>
      simp [hs, gbinder_buffer_free, g_free_objects, g_free_string, Heap.emit,
        List.count_append, List.count_cons, List.count_singleton]
  · simp only [gbinder_remote_request_set_data, call_read_rpc_header]
    cases iface2 <;> cases objs <;> cases buf <;> intro hs <;>
      simp [hs, gbinder_buffer_free, g_free_objects, g_free_string, Heap.emit,
        List.count_append, List.count_cons, List.count_singleton] <;>
      exact fun id hne heq => hne heq.symm

/-- What freeing a request does to the heap, event kind by event kind. -/
theorem free_effect (r : GBinderRemoteRequest) (h : Heap) :
    (∀ B, (r.data.buffer = some B →
        (gbinder_remote_request_free r h).trace.count (Event.buffer_free B)
          = h.trace.count (Event.buffer_free B) + 1) ∧
      (r.data.buffer ≠ some B →
        (gbinder_remote_request_free r h).trace.count (Event.buffer_free B)
          = h.trace.count (Event.buffer_free B))) ∧
    (∀ O, (r.data.objects = some O →
        (gbinder_remote_request_free r h).trace.count (Event.objects_free O)
          = h.trace.count (Event.objects_free O) + 1) ∧
      (r.data.objects ≠ some O →
        (gbinder_remote_request_free r h).trace.count (Event.objects_free O)
          = h.trace.count (Event.objects_free O))) ∧
    (∀ id, (r.iface2 = some id →
        (gbinder_remote_request_free r h).trace.count (Event.string_free id)
          = h.trace.count (Event.string_free id) + 1) ∧
      (r.iface2 ≠ some id →
        (gbinder_remote_request_free r h).trace.count (Event.string_free id)
          = h.trace.count (Event.string_free id))) ∧
    (gbinder_remote_request_free r h).trace.count Event.slice_free
      = h.trace.count Event.slice_free + 1 ∧
    (gbinder_remote_request_free r h).next = h.next ∧
    (∀ id, (gbinder_remote_request_free r h).trace.count (Event.string_alloc id)
      = h.trace.count (Event.string_alloc id)) := by
  obtain ⟨rc, pid, euid, p, iface, iface2, hsz, ⟨buf, objs, reg⟩⟩ := r
  refine ⟨?_, ?_, ?_, ?_, ?_, ?_⟩
  all_goals simp only [gbinder_remote_request_free]
  all_goals cases iface2 <;> cases objs <;> cases buf <;> cases reg
  all_goals simp [gbinder_buffer_free, g_free_objects, g_free_string,
    gbinder_object_registry_unref, Heap.emit, List.count_append, List.count_cons,
    List.count_singleton]

theorem call_other (ops : GBinderReaderOps) (c : Call) (r : GBinderRemoteRequest) (h : Heap)
    (hns : ∀ b o, c ≠ Call.set_data b o) (hnu : c ≠ Call.unref) :
    ∃ r1 : GBinderRemoteRequest, (call ops c (some r) h).2 = (some r1, h) ∧
      r1.data = r.data ∧ r1.iface2 = r.iface2 ∧ r1.protocol = r.protocol := by
  cases c with
  | set_data b o => exact absurd rfl (hns b o)
  | unref => exact absurd rfl hnu
  | ref => exact ⟨_, rfl, rfl, rfl, rfl⟩
  | _ => exact ⟨r, rfl, rfl, rfl, rfl⟩

theorem balanced_set_data (p : GBinderRpcProtocol) (Bs : List GBinderBuffer)
    (Os : List GBinderObjects) (r : GBinderRemoteRequest) (b : Option GBinderBuffer)
    (o : Option GBinderObjects) (h : Heap)
    (hw : always_writes_slot p ∨ never_writes_slot p)
    (hp : r.protocol = p) (hnone : never_writes_slot p → r.iface2 = none)
    (hbal : Balanced Bs Os r.data.buffer r.data.objects r.iface2 h)
    (hfb : ∀ x, b = some x → x ∉ Bs) (hfo : ∀ x, o = some x → x ∉ Os) :
    ∃ r1 : GBinderRemoteRequest,
      (gbinder_remote_request_set_data (some r) b o h).1 = some r1 ∧
      r1.protocol = p ∧ (never_writes_slot p → r1.iface2 = none) ∧
      Balanced (Bs ++ b.toList) (Os ++ o.toList) r1.data.buffer r1.data.objects r1.iface2
        (gbinder_remote_request_set_data (some r) b o h).2 ∧
      (gbinder_remote_request_set_data (some r) b o h).2.trace.count Event.slice_free
        = h.trace.count Event.slice_free := by
  obtain ⟨r1, rd, h1, hb1, ho1, hp1, hcb, hco, hcs, hsl, hun, hnu, hfr⟩ := set_data_effect r b o h
  obtain ⟨hBb, hBo, hBs, hA1, hA0⟩ := hbal
  have hslot : (r.protocol.read_rpc_header rd).slot = SlotWrite.untouched → r.iface2 = none := by
    intro hs
    rcases hw with hw | hw
    · rw [hp] at hs
      exact absurd hs (hw rd)
    · exact hnone hw
  refine ⟨r1, h1, hp1.trans hp, ?_, ⟨?_, ?_, ?_, ?_, ?_⟩, hsl⟩
  · intro hnw
    have hs : (r.protocol.read_rpc_header rd).slot = SlotWrite.untouched := by
      rw [hp]
      exact hnw rd
    rw [(hun hs).1]
    exact hnone hnw
  · rw [hb1]
    refine accounted_step _ _ r.data.buffer b _ _ hBb hfb ?_ hcb
    intro x
    cases b <;> simp [eq_comm]
  · rw [ho1]
    refine accounted_step _ _ r.data.objects o _ _ hBo hfo ?_ hco
    intro x
    cases o <;> simp [eq_comm]
  · cases hs : (r.protocol.read_rpc_header rd).slot with
    | untouched =>
      obtain ⟨hi, hn, _⟩ := hun hs
      have hnone2 := hslot hs
      rw [hi, hnone2]
      refine accounted_step _ _ r.iface2 none _ _ hBs (by simp) ?_ hcs
      intro x
      rw [hn]
      simp
    | null =>
      obtain ⟨hi, hn, _⟩ := hnu hs
      rw [hi]
      refine accounted_step _ _ r.iface2 none _ _ hBs (by simp) ?_ hcs
      intro x
      rw [hn]
      simp
    | fresh =>
      obtain ⟨hi, hn, _, _⟩ := hfr hs
      rw [hi]
      refine accounted_step _ _ r.iface2 (some h.next) _ _ hBs ?_ ?_ hcs
      · intro x hx
        simp only [Option.some.injEq] at hx
        omega
      · intro x
        rw [hn]
        simp only [Option.some.injEq]
        omega
  · intro id hid
    cases hs : (r.protocol.read_rpc_header rd).slot with
    | untouched =>
      obtain ⟨_, hn, hc⟩ := hun hs
      rw [hn] at hid
      rw [hc id]
      exact hA1 id hid
    | null =>
      obtain ⟨_, hn, hc⟩ := hnu hs
      rw [hn] at hid
      rw [hc id]
      exact hA1 id hid
    | fresh =>
      obtain ⟨_, hn, hc1, hc⟩ := hfr hs
      rw [hn] at hid
      by_cases he : id = h.next
      · subst he
        rw [hc1, hA0 h.next (by omega)]
      · rw [hc id he]
        exact hA1 id (by omega)
  · intro id hid
    cases hs : (r.protocol.read_rpc_header rd).slot with
    | untouched =>
      obtain ⟨_, hn, hc⟩ := hun hs
      rw [hn] at hid
      rw [hc id]
      exact hA0 id hid
    | null =>
      obtain ⟨_, hn, hc⟩ := hnu hs
      rw [hn] at hid
      rw [hc id]
      exact hA0 id hid
    | fresh =>
      obtain ⟨_, hn, _, hc⟩ := hfr hs
      rw [hn] at hid
      rw [hc id (by omega)]
      exact hA0 id (by omega)

theorem balanced_free (Bs : List GBinderBuffer) (Os : List GBinderObjects)
    (r : GBinderRemoteRequest) (h : Heap)
    (hbal : Balanced Bs Os r.data.buffer r.data.objects r.iface2 h) :
    Balanced Bs Os none none none (gbinder_remote_request_free r h) := by
  obtain ⟨hcb, hco, hcs, _, hn, hca⟩ := free_effect r h
  obtain ⟨hBb, hBo, hBs, hA1, hA0⟩ := hbal
  refine ⟨?_, ?_, ?_, ?_, ?_⟩
  · exact accounted_step _ _ r.data.buffer none _ _ hBb (by simp) (by simp) hcb
  · exact accounted_step _ _ r.data.objects none _ _ hBo (by simp) (by simp) hco
  · refine accounted_step _ _ r.iface2 none _ _ hBs (by simp) ?_ hcs
    intro x
    rw [hn]
    simp
  · intro id hid
    rw [hn] at hid
    rw [hca id]
    exact hA1 id hid
  · intro id hid
    rw [hn] at hid
    rw [hca id]
    exact hA0 id hid

/-- The two outcomes of `unref` on a live request: the count reaches 0 and the
request is freed, or it does not and the request lives on. -/
theorem unref_cases (r : GBinderRemoteRequest) (h : Heap) :
    (to_gint (r.refcount - 1) = 0 ∧
      gbinder_remote_request_unref (some r) h
        = (none, gbinder_remote_request_free
            { r with refcount := to_gint (r.refcount - 1) } h)) ∨
    (to_gint (r.refcount - 1) ≠ 0 ∧
      gbinder_remote_request_unref (some r) h
        = (some { r with refcount := to_gint (r.refcount - 1) }, h)) := by
  by_cases h0 : to_gint (r.refcount - 1) = 0
  · left
    exact ⟨h0, by simp [gbinder_remote_request_unref, h0]⟩
  · right
    exact ⟨h0, by simp [gbinder_remote_request_unref, h0]⟩

/-- The count of a request whose reference count is a `gint` reaches 0 at
`unref` exactly when it was 1. -/
theorem unref_frees_iff (r : GBinderRemoteRequest) (h : Heap)
    (hlo : -2 ^ 31 ≤ r.refcount) (hhi : r.refcount < 2 ^ 31) :
    (gbinder_remote_request_unref (some r) h).1 = none ↔ r.refcount = 1 := by
  have hz : to_gint (r.refcount - 1) = 0 ↔ r.refcount = 1 := by
    unfold to_gint
    omega
  rcases unref_cases r h with ⟨h0, hun⟩ | ⟨h0, hun⟩
  · rw [hun]
    simp [hz.1 h0]
  · rw [hun]
    simp only [reduceCtorEq, false_iff]
    exact fun h1 => h0 (hz.2 h1)

theorem step_balanced (ops : GBinderReaderOps) (p : GBinderRpcProtocol)
    (hw : always_writes_slot p ∨ never_writes_slot p)
    (Bs : List GBinderBuffer) (Os : List GBinderObjects) (c : Call) (s : Sys) (ret : Ret)
    (s1 : Sys) (hI : SysBalanced p Bs Os s) (hst : step ops c s = some (ret, s1))
    (hfb : ∀ x ∈ handed_buffers [c], x ∉ Bs) (hfo : ∀ x ∈ handed_tables [c], x ∉ Os) :
    SysBalanced p (Bs ++ handed_buffers [c]) (Os ++ handed_tables [c]) s1 := by
  obtain ⟨self, heap⟩ := s
  cases self with
  | null =>
    simp only [step, Option.some.injEq, Prod.mk.injEq] at hst
    obtain ⟨_, rfl⟩ := hst
    simp [SysBalanced]
  | freed => simp [step] at hst
  | live r =>
    simp only [SysBalanced] at hI
    obtain ⟨hp, hnone, hbal, hslice⟩ := hI
    by_cases hs : ∃ b o, c = Call.set_data b o
    · obtain ⟨b, o, rfl⟩ := hs
      rw [handed_buffers_set_data] at hfb ⊢
      rw [handed_tables_set_data] at hfo ⊢
      obtain ⟨r1, h1, hp1, hnone1, hbal1, hsl1⟩ :=
        balanced_set_data p Bs Os r b o heap hw hp hnone hbal
          (fun x hx => hfb x (by simp [hx])) (fun x hx => hfo x (by simp [hx]))
      simp only [step, call] at hst
      rw [h1] at hst
      simp only [Option.some.injEq, Prod.mk.injEq] at hst
      obtain ⟨_, rfl⟩ := hst
      exact ⟨hp1, hnone1, hbal1, hsl1.trans hslice⟩
    · have hns : ∀ b o, c ≠ Call.set_data b o := fun b o he => hs ⟨b, o, he⟩
      rw [handed_buffers_other c hns, handed_tables_other c hns, List.append_nil,
        List.append_nil]
      by_cases hu : c = Call.unref
      · subst hu
        simp only [step, call] at hst
        rcases unref_cases r heap with ⟨_, hun⟩ | ⟨_, hun⟩
        · rw [hun] at hst
          simp only [Option.some.injEq, Prod.mk.injEq] at hst
          obtain ⟨_, rfl⟩ := hst
          refine ⟨balanced_free Bs Os _ heap hbal, ?_⟩
          have := (free_effect { r with refcount := to_gint (r.refcount - 1) } heap).2.2.2.1
          simp only at this ⊢
          rw [this, hslice]
        · rw [hun] at hst
          simp only [Option.some.injEq, Prod.mk.injEq] at hst
          obtain ⟨_, rfl⟩ := hst
          exact ⟨hp, hnone, hbal, hslice⟩
      · obtain ⟨r1, hc, hd, hi, hpr⟩ := call_other ops c r heap hns hu
        simp only [step] at hst
        rw [hc] at hst
        simp only [Option.some.injEq, Prod.mk.injEq] at hst
        obtain ⟨_, rfl⟩ := hst
        simp only [SysBalanced]
        rw [hd, hi, hpr]
        exact ⟨hp, hnone, hbal, hslice⟩

theorem run_balanced (ops : GBinderReaderOps) (p : GBinderRpcProtocol)
    (hw : always_writes_slot p ∨ never_writes_slot p) :
    ∀ (cs : List Call) (Bs : List GBinderBuffer) (Os : List GBinderObjects) (s : Sys)
      (rets : List Ret) (s1 : Sys),
      SysBalanced p Bs Os s → run ops cs s = some (rets, s1) →
      (Bs ++ handed_buffers cs).Nodup → (Os ++ handed_tables cs).Nodup →
      SysBalanced p (Bs ++ handed_buffers cs) (Os ++ handed_tables cs) s1 := by
  intro cs
  induction cs with
  | nil =>
    intro Bs Os s rets s1 hI hrun _ _
    simp only [run, Option.some.injEq, Prod.mk.injEq] at hrun
    obtain ⟨_, rfl⟩ := hrun
    simpa [handed_buffers, handed_tables] using hI
  | cons c cs ih =>
    intro Bs Os s rets s1 hI hrun hB hO
    rw [handed_buffers_cons, ← List.append_assoc] at hB ⊢
    rw [handed_tables_cons, ← List.append_assoc] at hO ⊢
    unfold run at hrun
    cases hst : step ops c s with
    | none => simp [hst] at hrun
    | some out =>
      obtain ⟨ret, s2⟩ := out
      simp only [hst] at hrun
      cases hrest : run ops cs s2 with
      | none => simp [hrest] at hrun
      | some out2 =>
        obtain ⟨rets2, s3⟩ := out2
        simp only [hrest, Option.some.injEq, Prod.mk.injEq] at hrun
        obtain ⟨_, rfl⟩ := hrun
        have hB1 : (Bs ++ handed_buffers [c]).Nodup := (List.nodup_append.1 hB).1
        have hO1 : (Os ++ handed_tables [c]).Nodup := (List.nodup_append.1 hO).1
        have hfb : ∀ x ∈ handed_buffers [c], x ∉ Bs := fun x hx hx1 =>
          (List.nodup_append.1 hB1).2.2 hx1 hx
        have hfo : ∀ x ∈ handed_tables [c], x ∉ Os := fun x hx hx1 =>
          (List.nodup_append.1 hO1).2.2 hx1 hx
        exact ih _ _ s2 rets2 s3 (step_balanced ops p hw Bs Os c s ret s2 hI hst hfb hfo)
          hrest hB hO

theorem new_balanced (reg : Option Nat) (p : GBinderRpcProtocol) (pid : Int) (euid : Nat) :
    SysBalanced p [] [] (Sys.new reg p pid euid Heap.empty) := by
  cases reg <;>
    simp [SysBalanced, Sys.new, gbinder_remote_request_new, Balanced, Accounted,
      gbinder_object_registry_ref, Heap.empty, Heap.emit]

theorem sample_protocol_always_writes : always_writes_slot sample_protocol := by
  intro rd
  simp only [sample_protocol]
  split <;> simp

/-! ## The claims -/

/-- C1: for every request, whatever its protocol, every buffer `B` (its size a
`gsize`) and every object table `O`, after `set_data(B, O)` the request holds
`B` and `O`, the protocol was invoked exactly once more, on the cursor at
offset 0 with length `B.size` over the whole buffer, `header_size` is the
`bytes_read` of the cursor as the protocol left it, and `interface_name()` is
the name the protocol returned, be it present or absent. -/
theorem set_data_parses_header_once (r : GBinderRemoteRequest) (B : GBinderBuffer)
    (O : GBinderObjects) (h : Heap) (hB : B.size < GSIZE_MOD) :
    ∃ r1 : GBinderRemoteRequest,
      (gbinder_remote_request_set_data (some r) (some B) (some O) h).1 = some r1 ∧
      r1.data.buffer = some B ∧ r1.data.objects = some O ∧
      rpc_calls (gbinder_remote_request_set_data (some r) (some B) (some O) h).2.trace
        = rpc_calls h.trace ++ [whole_buffer_reader r.data.reg B (some O)] ∧
      (whole_buffer_reader r.data.reg B (some O)).offset = 0 ∧
      (whole_buffer_reader r.data.reg B (some O)).len = B.size ∧
      r1.header_size = gbinder_reader_bytes_read
        (r.protocol.read_rpc_header (whole_buffer_reader r.data.reg B (some O))).reader ∧
      gbinder_remote_request_interface (some r1)
        = (r.protocol.read_rpc_header (whole_buffer_reader r.data.reg B (some O))).iface := by
  refine ⟨_, rfl, ?_, ?_, ?_, rfl, rfl, ?_, ?_⟩
  · simp [gbinder_remote_request_set_data]
  · simp [gbinder_remote_request_set_data]
  · simp [gbinder_remote_request_set_data, gbinder_remote_request_init_reader2,
      rpc_calls_call, gsize_sub_zero B.size hB, whole_buffer_reader]
  · simp [gbinder_remote_request_set_data, gbinder_remote_request_init_reader2,
      call_fst, gsize_sub_zero B.size hB, whole_buffer_reader]
  · simp [gbinder_remote_request_set_data, gbinder_remote_request_init_reader2,
      gbinder_remote_request_interface, call_fst, gsize_sub_zero B.size hB, whole_buffer_reader]

/-- Witness of C1 on a buffer that holds only the marker: the name the
protocol returns is absent and the header length is the partial length 4. -/
theorem set_data_parses_header_once_witness :
    marker_buffer.size < GSIZE_MOD ∧
    ∃ r1 : GBinderRemoteRequest,
      (gbinder_remote_request_set_data (some fresh_request) (some marker_buffer)
        (some scenario_objects) fresh_heap).1 = some r1 ∧
      r1.data.buffer = some marker_buffer ∧ r1.data.objects = some scenario_objects ∧
      rpc_calls (gbinder_remote_request_set_data (some fresh_request) (some marker_buffer)
        (some scenario_objects) fresh_heap).2.trace
        = rpc_calls fresh_heap.trace
          ++ [whole_buffer_reader fresh_request.data.reg marker_buffer (some scenario_objects)] ∧
      (whole_buffer_reader fresh_request.data.reg marker_buffer (some scenario_objects)).offset = 0 ∧
      (whole_buffer_reader fresh_request.data.reg marker_buffer (some scenario_objects)).len
        = marker_buffer.size ∧
      r1.header_size = gbinder_reader_bytes_read
        (fresh_request.protocol.read_rpc_header
          (whole_buffer_reader fresh_request.data.reg marker_buffer (some scenario_objects))).reader ∧
      gbinder_remote_request_interface (some r1)
        = (fresh_request.protocol.read_rpc_header
          (whole_buffer_reader fresh_request.data.reg marker_buffer (some scenario_objects))).iface :=
  ⟨by decide, set_data_parses_header_once fresh_request marker_buffer scenario_objects fresh_heap
    (by decide)⟩

/-- C2: for every request with an attached buffer of size `S` and recorded
header length `H`, `init_reader` and each of the eight reads work on the cursor
with offset `H` and length `S - H` (the `gsize` difference, which is the exact
difference whenever `H ≤ S`) over the request's shared data, and a read returns
exactly what the Parcel Reader operation returns on that cursor; with no buffer
attached the cursor has offset 0 and length 0. -/
theorem reads_delegate_to_payload_cursor (ops : GBinderReaderOps) (r : GBinderRemoteRequest)
    (v : Nat) :
    (∀ B : GBinderBuffer, r.data.buffer = some B →
      gbinder_remote_request_init_reader (some r)
        = gbinder_reader_init (some r.data) r.header_size (gsize_sub B.size r.header_size) ∧
      (gbinder_remote_request_init_reader (some r)).offset = r.header_size ∧
      (gbinder_remote_request_init_reader (some r)).len = gsize_sub B.size r.header_size ∧
      (r.header_size ≤ B.size → B.size < GSIZE_MOD →
        (gbinder_remote_request_init_reader (some r)).len = B.size - r.header_size) ∧
      gbinder_remote_request_read_int32 ops (some r) v
        = ops.read_uint32 (gbinder_remote_request_init_reader (some r)) v ∧
      gbinder_remote_request_read_uint32 ops (some r) v
        = ops.read_uint32 (gbinder_remote_request_init_reader (some r)) v ∧
      gbinder_remote_request_read_int64 ops (some r) v
        = ops.read_uint64 (gbinder_remote_request_init_reader (some r)) v ∧
      gbinder_remote_request_read_uint64 ops (some r) v
        = ops.read_uint64 (gbinder_remote_request_init_reader (some r)) v ∧
      gbinder_remote_request_read_string8 ops (some r)
        = ops.read_string8 (gbinder_remote_request_init_reader (some r)) ∧
      gbinder_remote_request_read_string16 ops (some r)
        = ops.read_string16 (gbinder_remote_request_init_reader (some r)) ∧
      gbinder_remote_request_read_object ops (some r)
        = ops.read_object (gbinder_remote_request_init_reader (some r))) ∧
    (r.data.buffer = none →
      gbinder_remote_request_init_reader (some r) = gbinder_reader_init (some r.data) 0 0 ∧
      (gbinder_remote_request_init_reader (some r)).offset = 0 ∧
      (gbinder_remote_request_init_reader (some r)).len = 0 ∧
      gbinder_remote_request_read_int32 ops (some r) v
        = ops.read_uint32 (gbinder_reader_init (some r.data) 0 0) v ∧
      gbinder_remote_request_read_uint32 ops (some r) v
        = ops.read_uint32 (gbinder_reader_init (some r.data) 0 0) v ∧
      gbinder_remote_request_read_int64 ops (some r) v
        = ops.read_uint64 (gbinder_reader_init (some r.data) 0 0) v ∧
      gbinder_remote_request_read_uint64 ops (some r) v
        = ops.read_uint64 (gbinder_reader_init (some r.data) 0 0) v ∧
      gbinder_remote_request_read_string8 ops (some r)
        = ops.read_string8 (gbinder_reader_init (some r.data) 0 0) ∧
      gbinder_remote_request_read_string16 ops (some r)
        = ops.read_string16 (gbinder_reader_init (some r.data) 0 0) ∧
      gbinder_remote_request_read_object ops (some r)
        = ops.read_object (gbinder_reader_init (some r.data) 0 0)) := by
  constructor
  · intro B hB
    have hcur : gbinder_remote_request_init_reader (some r)
        = gbinder_reader_init (some r.data) r.header_size (gsize_sub B.size r.header_size) := by
      simp [gbinder_remote_request_init_reader, gbinder_remote_request_init_reader2, hB]
    refine ⟨hcur, ?_, ?_, ?_, rfl, rfl, rfl, rfl, rfl, rfl, rfl⟩
    · rw [hcur]; rfl
    · rw [hcur]; rfl
    · intro hH hS
      rw [hcur]
      exact gsize_sub_exact B.size r.header_size hH hS
  · intro hB
    have hcur : gbinder_remote_request_init_reader (some r)
        = gbinder_reader_init (some r.data) 0 0 := by
      simp [gbinder_remote_request_init_reader, gbinder_remote_request_init_reader2, hB]
    have h2 : gbinder_remote_request_init_reader2 r = gbinder_reader_init (some r.data) 0 0 := hcur
    refine ⟨hcur, ?_, ?_, ?_, ?_, ?_, ?_, ?_, ?_, ?_⟩
    · rw [hcur]; rfl
    · rw [hcur]; rfl
    all_goals simp [gbinder_remote_request_read_int32, gbinder_remote_request_read_uint32,
      gbinder_remote_request_read_int64, gbinder_remote_request_read_uint64,
      gbinder_remote_request_read_string8, gbinder_remote_request_read_string16,
      gbinder_remote_request_read_object, h2]

/-- Witness of C2 on the request of the specification's scenario: the cursor
starts at offset 12 and is 4 bytes long, and `read_int32` is the reader's
32-bit read on it. -/
theorem reads_delegate_to_payload_cursor_witness :
    scenario_request.data.buffer = some scenario_buffer ∧
    (gbinder_remote_request_init_reader (some scenario_request)).offset
      = scenario_request.header_size ∧
    (scenario_request.header_size ≤ scenario_buffer.size → scenario_buffer.size < GSIZE_MOD →
      (gbinder_remote_request_init_reader (some scenario_request)).len
        = scenario_buffer.size - scenario_request.header_size) ∧
    gbinder_remote_request_read_int32 sample_ops (some scenario_request) 7
      = sample_ops.read_uint32 (gbinder_remote_request_init_reader (some scenario_request)) 7 :=
  ⟨rfl,
   ((reads_delegate_to_payload_cursor sample_ops scenario_request 7).1 scenario_buffer rfl).2.1,
   ((reads_delegate_to_payload_cursor sample_ops scenario_request 7).1
      scenario_buffer rfl).2.2.2.1,
   ((reads_delegate_to_payload_cursor sample_ops scenario_request 7).1
      scenario_buffer rfl).2.2.2.2.1⟩

/-- C3: for every request and every scalar or string read, performing the read
leaves the request (header length, interface name, buffer, object table) and
the heap (no invocation of the protocol's `read_rpc_header`, nothing released)
as they were, and the read returns the same value when performed twice in a
row and when performed before and after any sequence of other reads. -/
theorem reads_are_repeatable (ops : GBinderReaderOps) (r : GBinderRemoteRequest) (h : Heap)
    (c : Call) (hc : c.is_scalar_or_string_read = true)
    (cs : List Call) (hcs : ∀ c1 ∈ cs, c1.is_read = true) :
    ∃ ret : Ret,
      step ops c { self := Handle.live r, heap := h }
        = some (ret, { self := Handle.live r, heap := h }) ∧
      run ops [c, c] { self := Handle.live r, heap := h }
        = some ([ret, ret], { self := Handle.live r, heap := h }) ∧
      ∃ rets : List Ret,
        run ops (c :: cs ++ [c]) { self := Handle.live r, heap := h }
          = some (ret :: rets ++ [ret], { self := Handle.live r, heap := h }) := by
  have hr := is_read_of_scalar c hc
  refine ⟨(call ops c (some r) h).1, step_read ops c hr r h, ?_, ?_⟩
  · have := run_reads ops r h [c, c] (by simpa using hr)
    simpa using this
  · refine ⟨cs.map (fun c1 => (call ops c1 (some r) h).1), ?_⟩
    have hall : ∀ c1 ∈ c :: cs ++ [c], c1.is_read = true := by
      intro c1 hc1
      simp only [List.cons_append, List.mem_cons, List.mem_append, List.mem_singleton,
        List.not_mem_nil, or_false] at hc1
      rcases hc1 with rfl | hc1 | rfl
      · exact hr
      · exact hcs c1 hc1
      · exact hr
    have := run_reads ops r h (c :: cs ++ [c]) hall
    simpa using this

/-- Witness of C3 on the request of the specification's scenario, whose header
is consumed and followed by the 32-bit integer 42: `read_int32` returns 42 on
the first call, on the second, and after a string read and an object read. -/
theorem reads_are_repeatable_witness :
    (Call.read_int32 7).is_scalar_or_string_read = true ∧
    (∀ c1 ∈ [Call.read_string8, Call.read_object], c1.is_read = true) ∧
    (∃ ret : Ret,
      step sample_ops (Call.read_int32 7) { self := Handle.live scenario_request, heap := fresh_heap }
        = some (ret, { self := Handle.live scenario_request, heap := fresh_heap }) ∧
      run sample_ops [Call.read_int32 7, Call.read_int32 7]
          { self := Handle.live scenario_request, heap := fresh_heap }
        = some ([ret, ret], { self := Handle.live scenario_request, heap := fresh_heap }) ∧
      ∃ rets : List Ret,
        run sample_ops (Call.read_int32 7 :: [Call.read_string8, Call.read_object]
            ++ [Call.read_int32 7])
          { self := Handle.live scenario_request, heap := fresh_heap }
          = some (ret :: rets ++ [ret],
              { self := Handle.live scenario_request, heap := fresh_heap })) ∧
    (run sample_ops [Call.read_int32 7, Call.read_int32 7]
        { self := Handle.live scenario_request, heap := fresh_heap }).map Prod.fst
      = some [Ret.num (true, 42), Ret.num (true, 42)] :=
  ⟨rfl, by decide,
   reads_are_repeatable sample_ops scenario_request fresh_heap (Call.read_int32 7) rfl
     [Call.read_string8, Call.read_object] (by decide),
   by decide⟩

/-- C4: on an absent request `interface_name` returns absent, `sender_pid`
returns -1, `sender_euid` returns the all-ones value of `uid_t`, the four
numeric reads return `FALSE` and leave the caller's cell as it was, the string
and object reads return absent, `ref` returns absent, `unref` does nothing, and
`init_reader` yields a cursor with no data, offset 0 and length 0. -/
theorem null_request_is_tolerated (ops : GBinderReaderOps) (v : Nat) (h : Heap) :
    gbinder_remote_request_interface none = none ∧
    gbinder_remote_request_sender_pid none = -1 ∧
    gbinder_remote_request_sender_euid none = 2 ^ 32 - 1 ∧
    gbinder_remote_request_read_int32 ops none v = (false, v) ∧
    gbinder_remote_request_read_uint32 ops none v = (false, v) ∧
    gbinder_remote_request_read_int64 ops none v = (false, v) ∧
    gbinder_remote_request_read_uint64 ops none v = (false, v) ∧
    gbinder_remote_request_read_string8 ops none = none ∧
    gbinder_remote_request_read_string16 ops none = none ∧
    gbinder_remote_request_read_object ops none = none ∧
    gbinder_remote_request_ref none = none ∧
    gbinder_remote_request_unref none h = (none, h) ∧
    gbinder_remote_request_init_reader none
      = { data := none, offset := 0, len := 0, pos := 0 } := by
  refine ⟨rfl, by decide, by decide, rfl, rfl, rfl, rfl, rfl, rfl, rfl, rfl, rfl, rfl⟩

/-- C6: for every request and all buffers and tables, the request after
`set_data(B1, O1)` followed by `set_data(B2, O2)` has the same attached buffer
(`B2`), the same object table (`O2`), the same `header_size` and the same
interface name as the request after `set_data(B2, O2)` alone. -/
theorem second_set_data_supersedes (r : GBinderRemoteRequest)
    (B1 B2 : Option GBinderBuffer) (O1 O2 : Option GBinderObjects) (h h0 : Heap) :
    ∃ ra rb : GBinderRemoteRequest,
      (gbinder_remote_request_set_data (gbinder_remote_request_set_data (some r) B1 O1 h).1
        B2 O2 (gbinder_remote_request_set_data (some r) B1 O1 h).2).1 = some ra ∧
      (gbinder_remote_request_set_data (some r) B2 O2 h0).1 = some rb ∧
      ra.data.buffer = B2 ∧ rb.data.buffer = B2 ∧
      ra.data.objects = O2 ∧ rb.data.objects = O2 ∧
      ra.header_size = rb.header_size ∧
      gbinder_remote_request_interface (some ra) = gbinder_remote_request_interface (some rb) := by
  obtain ⟨r1, h1, _, _, hp1, hd1, _, _⟩ := set_data_some r B1 O1 h
  obtain ⟨ra, ha, _, _, _, hda, hia, hha⟩ :=
    set_data_some r1 B2 O2 (gbinder_remote_request_set_data (some r) B1 O1 h).2
  obtain ⟨rb, hb, _, _, _, hdb, hib, hhb⟩ := set_data_some r B2 O2 h0
  refine ⟨ra, rb, ?_, hb, ?_, ?_, ?_, ?_, ?_, ?_⟩
  · rw [h1]; exact ha
  · rw [hda]
  · rw [hdb]
  · rw [hda]
  · rw [hdb]
  · rw [hha, hhb, hp1, hd1]
    rfl
  · simp only [gbinder_remote_request_interface]
    rw [hia, hib, hp1, hd1]
    rfl

/-- C7: `set_data` on an absent request releases the buffer and the object
table it was handed, each once, and does nothing else: no request comes into
being, nothing else is released and the protocol is not invoked. -/
theorem set_data_on_null_releases_arguments (B : GBinderBuffer) (O : GBinderObjects) (h : Heap) :
    gbinder_remote_request_set_data none (some B) (some O) h
      = (none, { trace := h.trace ++ [Event.buffer_free B, Event.objects_free O],
                 next := h.next }) ∧
    rpc_calls (gbinder_remote_request_set_data none (some B) (some O) h).2.trace
      = rpc_calls h.trace ∧
    gbinder_remote_request_set_data none none none h = (none, h) := by
  refine ⟨?_, ?_, rfl⟩
  · simp [gbinder_remote_request_set_data, gbinder_buffer_free, g_free_objects, Heap.emit]
  · simp [gbinder_remote_request_set_data]

/-- C8: `new(registry, protocol, pid, euid)` returns a request with reference
count 1, no buffer, no object table, `header_size` 0 and no interface name; and
in every state reached from it by a sequence of calls in which the request is
still live, `sender_pid` and `sender_euid` return `pid` and `euid` and the
protocol is the one given to `new`. -/
theorem new_request_and_credentials (ops : GBinderReaderOps) (reg : Option Nat)
    (protocol : GBinderRpcProtocol) (pid : Int) (euid : Nat) (h : Heap)
    (cs : List Call) (rets : List Ret) (s : Sys) (r : GBinderRemoteRequest)
    (hlo : -2 ^ 31 ≤ pid) (hhi : pid < 2 ^ 31)
    (hrun : run ops cs (Sys.new reg protocol pid euid h) = some (rets, s))
    (hlive : s.self = Handle.live r) :
    (gbinder_remote_request_new reg protocol pid euid h).1.refcount = 1 ∧
    (gbinder_remote_request_new reg protocol pid euid h).1.data.buffer = none ∧
    (gbinder_remote_request_new reg protocol pid euid h).1.data.objects = none ∧
    (gbinder_remote_request_new reg protocol pid euid h).1.header_size = 0 ∧
    gbinder_remote_request_interface (some (gbinder_remote_request_new reg protocol pid euid h).1)
      = none ∧
    gbinder_remote_request_sender_pid (some (gbinder_remote_request_new reg protocol pid euid h).1)
      = pid ∧
    gbinder_remote_request_sender_euid (some (gbinder_remote_request_new reg protocol pid euid h).1)
      = euid ∧
    gbinder_remote_request_sender_pid (some r) = pid ∧
    gbinder_remote_request_sender_euid (some r) = euid ∧
    r.protocol = protocol := by
  have hinv : r.pid = pid ∧ r.euid = euid ∧ r.protocol = protocol := by
    refine run_preserves ops (fun q => q.pid = pid ∧ q.euid = euid ∧ q.protocol = protocol)
      (fun _ => True) ?_ cs (Sys.new reg protocol pid euid h) rets s (fun _ _ => trivial) hrun ?_
      r hlive
    · intro c q hq q1 _ hP hc
      obtain ⟨a, b, d⟩ := call_keeps_credentials ops c q hq q1 hc
      exact ⟨a.trans hP.1, b.trans hP.2.1, d.trans hP.2.2⟩
    · intro q hq
      simp [Sys.new, gbinder_remote_request_new] at hq
      subst hq
      exact ⟨rfl, rfl, rfl⟩
  refine ⟨rfl, rfl, rfl, rfl, rfl, ?_, rfl, ?_, ?_, hinv.2.2⟩
  · exact pid_round_trip pid hlo hhi
  · simp only [gbinder_remote_request_sender_pid, hinv.1]
    exact pid_round_trip pid hlo hhi
  · simp only [gbinder_remote_request_sender_euid, hinv.2.1]

/-- Witness of C8: the request of the specification's scenario after
`set_data`, `ref`, a read, `unref` and `interface_name` still reports the
credentials 100 and 1000 given to `new`. -/
theorem new_request_and_credentials_witness :
    (-2 ^ 31 ≤ (100 : Int)) ∧ ((100 : Int) < 2 ^ 31) ∧
    run sample_ops
        [Call.set_data (some scenario_buffer) (some scenario_objects), Call.ref,
          Call.read_int32 7, Call.unref, Call.interface]
        (Sys.new (some 9) sample_protocol 100 1000 Heap.empty)
      = some ([Ret.unit, Ret.pointer true, Ret.num (true, 42), Ret.unit, Ret.name (some "foo")],
          { self := Handle.live scenario_request,
            heap := { trace := [Event.registry_ref 9,
                        Event.read_rpc_header
                          (whole_buffer_reader (some 9) scenario_buffer (some scenario_objects)),
                        Event.string_alloc 0],
                      next := 1 } }) ∧
    gbinder_remote_request_sender_pid (some scenario_request) = 100 ∧
    gbinder_remote_request_sender_euid (some scenario_request) = 1000 :=
  ⟨by decide, by decide, rfl,
   (new_request_and_credentials sample_ops (some 9) sample_protocol 100 1000 Heap.empty
      [Call.set_data (some scenario_buffer) (some scenario_objects), Call.ref,
        Call.read_int32 7, Call.unref, Call.interface]
      [Ret.unit, Ret.pointer true, Ret.num (true, 42), Ret.unit, Ret.name (some "foo")]
      { self := Handle.live scenario_request,
        heap := { trace := [Event.registry_ref 9,
                    Event.read_rpc_header
                      (whole_buffer_reader (some 9) scenario_buffer (some scenario_objects)),
                    Event.string_alloc 0],
                  next := 1 } }
      scenario_request (by decide) (by decide) rfl rfl).2.2.2.2.2.2.2.1,
   (new_request_and_credentials sample_ops (some 9) sample_protocol 100 1000 Heap.empty
      [Call.set_data (some scenario_buffer) (some scenario_objects), Call.ref,
        Call.read_int32 7, Call.unref, Call.interface]
      [Ret.unit, Ret.pointer true, Ret.num (true, 42), Ret.unit, Ret.name (some "foo")]
      { self := Handle.live scenario_request,
        heap := { trace := [Event.registry_ref 9,
                    Event.read_rpc_header
                      (whole_buffer_reader (some 9) scenario_buffer (some scenario_objects)),
                    Event.string_alloc 0],
                  next := 1 } }
      scenario_request (by decide) (by decide) rfl rfl).2.2.2.2.2.2.2.2.1⟩

/-- Counterexample to C9 as stated: the request of the specification's scenario
has interface `foo`, header length 12 and reads 42; after `set_data` with no
buffer and no table its interface is absent, its header length is 0 and the
same read fails. -/
theorem set_data_without_buffer_is_not_a_no_op :
    (gbinder_remote_request_set_data (some fresh_request) (some scenario_buffer)
      (some scenario_objects) fresh_heap).1 = some scenario_request ∧
    gbinder_remote_request_interface (some scenario_request) = some "foo" ∧
    gbinder_remote_request_interface
      (gbinder_remote_request_set_data (some scenario_request) none none fresh_heap).1 = none ∧
    scenario_request.header_size = 12 ∧
    (gbinder_remote_request_set_data (some scenario_request) none none fresh_heap).1.map
      (fun q => q.header_size) = some 0 ∧
    gbinder_remote_request_read_int32 sample_ops (some scenario_request) 7 = (true, 42) ∧
    gbinder_remote_request_read_int32 sample_ops
      (gbinder_remote_request_set_data (some scenario_request) none none fresh_heap).1 7
      = (false, 7) ∧
    ¬ (gbinder_remote_request_interface
          (gbinder_remote_request_set_data (some scenario_request) none none fresh_heap).1
        = gbinder_remote_request_interface (some scenario_request)) :=
  ⟨rfl, rfl, rfl, rfl, rfl, rfl, rfl, by decide⟩

/-- C9, amended: `set_data` with no buffer and no table detaches the request's
data.  Afterwards no buffer and no table are attached, the interface name and
the header length are those the protocol yields on the empty cursor (offset 0,
length 0), and reads work on that empty cursor.  The interface name, the header
length and the result of every read are the same after the call as before it
for every request that has no buffer and no table attached and holds the name
and header length the protocol yields on the empty cursor. -/
theorem set_data_without_buffer_detaches (ops : GBinderReaderOps) (r : GBinderRemoteRequest)
    (h : Heap) (v : Nat) :
    ∃ r1 : GBinderRemoteRequest,
      (gbinder_remote_request_set_data (some r) none none h).1 = some r1 ∧
      r1.data.buffer = none ∧ r1.data.objects = none ∧
      gbinder_remote_request_interface (some r1)
        = (r.protocol.read_rpc_header (empty_reader r.data.reg)).iface ∧
      r1.header_size
        = gbinder_reader_bytes_read (r.protocol.read_rpc_header (empty_reader r.data.reg)).reader ∧
      gbinder_remote_request_init_reader (some r1) = empty_reader r.data.reg ∧
      (r.data.buffer = none → r.data.objects = none →
        r.iface = (r.protocol.read_rpc_header (empty_reader r.data.reg)).iface →
        r.header_size
          = gbinder_reader_bytes_read
              (r.protocol.read_rpc_header (empty_reader r.data.reg)).reader →
        gbinder_remote_request_interface (some r1) = gbinder_remote_request_interface (some r) ∧
        r1.header_size = r.header_size ∧
        gbinder_remote_request_init_reader (some r1)
          = gbinder_remote_request_init_reader (some r) ∧
        gbinder_remote_request_read_int32 ops (some r1) v
          = gbinder_remote_request_read_int32 ops (some r) v ∧
        gbinder_remote_request_read_uint32 ops (some r1) v
          = gbinder_remote_request_read_uint32 ops (some r) v ∧
        gbinder_remote_request_read_int64 ops (some r1) v
          = gbinder_remote_request_read_int64 ops (some r) v ∧
        gbinder_remote_request_read_uint64 ops (some r1) v
          = gbinder_remote_request_read_uint64 ops (some r) v ∧
        gbinder_remote_request_read_string8 ops (some r1)
          = gbinder_remote_request_read_string8 ops (some r) ∧
        gbinder_remote_request_read_string16 ops (some r1)
          = gbinder_remote_request_read_string16 ops (some r) ∧
        gbinder_remote_request_read_object ops (some r1)
          = gbinder_remote_request_read_object ops (some r)) := by
  obtain ⟨r1, h1, _, _, _, hd, hi, hh⟩ := set_data_some r none none h
  rw [init_reader2_no_buffer r none 0] at hi hh
  have hcur1 : gbinder_remote_request_init_reader2 r1 = empty_reader r.data.reg := by
    simp [gbinder_remote_request_init_reader2, hd, empty_reader]
  refine ⟨r1, h1, ?_, ?_, hi, hh, hcur1, ?_⟩
  · rw [hd]
  · rw [hd]
  · intro hb ho hif hhs
    have hdata : r.data = { buffer := none, objects := none, reg := r.data.reg } := by
      cases hr : r.data with
      | mk b o g =>
        rw [hr] at hb ho
        simp only at hb ho
        subst hb
        subst ho
        rfl
    have hcur : gbinder_remote_request_init_reader2 r = empty_reader r.data.reg := by
      unfold gbinder_remote_request_init_reader2
      rw [hb]
      simp only [empty_reader]
      rw [← hdata]
    have hcc : gbinder_remote_request_init_reader2 r1 = gbinder_remote_request_init_reader2 r :=
      hcur1.trans hcur.symm
    refine ⟨?_, ?_, hcc, ?_, ?_, ?_, ?_, ?_, ?_, ?_⟩
    · exact hi.trans hif.symm
    · exact hh.trans hhs.symm
    all_goals simp [gbinder_remote_request_read_int32, gbinder_remote_request_read_uint32,
      gbinder_remote_request_read_int64, gbinder_remote_request_read_uint64,
      gbinder_remote_request_read_string8, gbinder_remote_request_read_string16,
      gbinder_remote_request_read_object, hcc]

/-- Witness of C9, amended: a request fresh from `new` has no buffer, no table,
no interface name and header length 0, which is what the protocol yields on the
empty cursor; `set_data` with no buffer changes none of what it reports. -/
theorem set_data_without_buffer_detaches_witness :
    fresh_request.data.buffer = none ∧ fresh_request.data.objects = none ∧
    fresh_request.iface
      = (fresh_request.protocol.read_rpc_header (empty_reader fresh_request.data.reg)).iface ∧
    fresh_request.header_size
      = gbinder_reader_bytes_read
          (fresh_request.protocol.read_rpc_header (empty_reader fresh_request.data.reg)).reader ∧
    ∃ r1 : GBinderRemoteRequest,
      (gbinder_remote_request_set_data (some fresh_request) none none fresh_heap).1 = some r1 ∧
      gbinder_remote_request_interface (some r1)
        = gbinder_remote_request_interface (some fresh_request) ∧
      r1.header_size = fresh_request.header_size ∧
      gbinder_remote_request_read_int32 sample_ops (some r1) 7
        = gbinder_remote_request_read_int32 sample_ops (some fresh_request) 7 := by
  refine ⟨rfl, rfl, rfl, rfl, ?_⟩
  obtain ⟨r1, h1, _, _, _, _, _, hno⟩ :=
    set_data_without_buffer_detaches sample_ops fresh_request fresh_heap 7
  exact ⟨r1, h1, (hno rfl rfl rfl rfl).1, (hno rfl rfl rfl rfl).2.1,
    (hno rfl rfl rfl rfl).2.2.2.1⟩

/-- C10: for a protocol whose cursor never reports more bytes read than the
length it was initialised with, and buffers whose size is a `gsize`, in every
state reached from `new` by a sequence of calls in which the request is live: if
a buffer is attached then `header_size` is at most its size, the `gsize`
difference `size - header_size` does not wrap around, and the cursor's offset
plus its length is the buffer's size; and if no buffer is attached the cursor's
length is 0. -/
theorem header_size_within_buffer (ops : GBinderReaderOps) (reg : Option Nat)
    (protocol : GBinderRpcProtocol) (pid : Int) (euid : Nat) (h : Heap)
    (cs : List Call) (rets : List Ret) (s : Sys) (r : GBinderRemoteRequest)
    (hproto : ∀ (data : Option GBinderReaderData) (len : Nat),
      gbinder_reader_bytes_read (protocol.read_rpc_header (gbinder_reader_init data 0 len)).reader
        ≤ len)
    (hfit : ∀ c ∈ cs, c.buffer_fits = true)
    (hrun : run ops cs (Sys.new reg protocol pid euid h) = some (rets, s))
    (hlive : s.self = Handle.live r) :
    (∀ B : GBinderBuffer, r.data.buffer = some B →
      r.header_size ≤ B.size ∧
      gsize_sub B.size r.header_size = B.size - r.header_size ∧
      (gbinder_remote_request_init_reader (some r)).offset
        + (gbinder_remote_request_init_reader (some r)).len = B.size) ∧
    (r.data.buffer = none → (gbinder_remote_request_init_reader (some r)).len = 0) := by
  have hinv : r.protocol = protocol ∧
      ∀ B, r.data.buffer = some B → r.header_size ≤ B.size ∧ B.size < GSIZE_MOD := by
    refine run_preserves ops
      (fun q => q.protocol = protocol ∧
        ∀ B, q.data.buffer = some B → q.header_size ≤ B.size ∧ B.size < GSIZE_MOD)
      (fun c => c.buffer_fits = true) ?_ cs (Sys.new reg protocol pid euid h) rets s hfit hrun ?_
      r hlive
    · intro c q hq q1 hQ hP hc
      exact call_keeps_header_within ops protocol hproto c q hq q1 hQ hP hc
    · intro q hq
      simp [Sys.new, gbinder_remote_request_new] at hq
      subst hq
      exact ⟨rfl, fun B hB => by simp at hB⟩
  constructor
  · intro B hB
    obtain ⟨hle, hlt⟩ := hinv.2 B hB
    have hsub := gsize_sub_exact B.size r.header_size hle hlt
    refine ⟨hle, hsub, ?_⟩
    simp only [gbinder_remote_request_init_reader, gbinder_remote_request_init_reader2, hB,
      gbinder_reader_init, hsub]
    omega
  · intro hB
    simp [gbinder_remote_request_init_reader, gbinder_remote_request_init_reader2, hB,
      gbinder_reader_init]

/-- Witness of C10: the request of the specification's scenario, reached from
`new` by `set_data` and a read, has header length 12 within its buffer of 16
bytes, and offset plus length of its cursor is 16. -/
theorem header_size_within_buffer_witness :
    (∀ (data : Option GBinderReaderData) (len : Nat),
      gbinder_reader_bytes_read
        (sample_protocol.read_rpc_header (gbinder_reader_init data 0 len)).reader ≤ len) ∧
    (∀ c ∈ [Call.set_data (some scenario_buffer) (some scenario_objects), Call.read_int32 7],
      c.buffer_fits = true) ∧
    scenario_request.data.buffer = some scenario_buffer ∧
    scenario_request.header_size ≤ scenario_buffer.size ∧
    gsize_sub scenario_buffer.size scenario_request.header_size
      = scenario_buffer.size - scenario_request.header_size ∧
    (gbinder_remote_request_init_reader (some scenario_request)).offset
      + (gbinder_remote_request_init_reader (some scenario_request)).len = scenario_buffer.size :=
  ⟨sample_protocol_within, by decide, rfl,
   (header_size_within_buffer sample_ops (some 9) sample_protocol 100 1000 Heap.empty
      [Call.set_data (some scenario_buffer) (some scenario_objects), Call.read_int32 7]
      [Ret.unit, Ret.num (true, 42)]
      { self := Handle.live scenario_request,
        heap := { trace := [Event.registry_ref 9,
                    Event.read_rpc_header
                      (whole_buffer_reader (some 9) scenario_buffer (some scenario_objects)),
                    Event.string_alloc 0],
                  next := 1 } }
      scenario_request sample_protocol_within (by decide) rfl rfl).1 scenario_buffer rfl⟩

/-- C5, the code at a failing input: with a protocol that allocates the name
when the header parses and returns early, the slot untouched, when it does not,
the life `new; set_data(B1, O1); set_data(B2, O2); unref` with a well-formed
`B1` and a truncated `B2` allocates one string and releases it twice: once in
the second `set_data` and once more when the request is freed. -/
theorem early_return_protocol_double_free :
    (run sample_ops
        [Call.set_data (some scenario_buffer) (some scenario_objects),
          Call.set_data (some short_buffer) (some short_objects), Call.unref]
        (Sys.new (some 9) early_return_protocol 100 1000 Heap.empty)).map
      (fun out => out.2.heap.trace)
      = some [Event.registry_ref 9,
          Event.read_rpc_header
            (whole_buffer_reader (some 9) scenario_buffer (some scenario_objects)),
          Event.string_alloc 0,
          Event.string_free 0,
          Event.objects_free scenario_objects,
          Event.buffer_free scenario_buffer,
          Event.read_rpc_header (whole_buffer_reader (some 9) short_buffer (some short_objects)),
          Event.registry_unref 9,
          Event.buffer_free short_buffer,
          Event.objects_free short_objects,
          Event.string_free 0,
          Event.slice_free] ∧
    (run sample_ops
        [Call.set_data (some scenario_buffer) (some scenario_objects),
          Call.set_data (some short_buffer) (some short_objects), Call.unref]
        (Sys.new (some 9) early_return_protocol 100 1000 Heap.empty)).map
      (fun out => (out.2.heap.trace.count (Event.string_alloc 0),
        out.2.heap.trace.count (Event.string_free 0)))
      = some (1, 2) := by
  constructor <;> decide

/-! ## Resource accounting under a slot discipline -/

/-- Resource accounting for a protocol that writes the owned-string slot on
every invocation, or on none, over any life of a request that hands over
pairwise distinct buffers and pairwise distinct object tables.  Once the
request is freed, every buffer and table handed over has been released exactly
once, every string allocated has been released exactly once, and the request
has been freed once.  While the request is live it has not been freed, nothing
has been released twice and what it holds has not been released. -/
theorem accounting_under_slot_discipline (ops : GBinderReaderOps) (reg : Option Nat)
    (p : GBinderRpcProtocol) (pid : Int) (euid : Nat) (cs : List Call) (rets : List Ret)
    (s : Sys) (hw : always_writes_slot p ∨ never_writes_slot p)
    (hB : (handed_buffers cs).Nodup) (hO : (handed_tables cs).Nodup)
    (hrun : run ops cs (Sys.new reg p pid euid Heap.empty) = some (rets, s)) :
    (s.self = Handle.freed →
      (∀ B ∈ handed_buffers cs, s.heap.trace.count (Event.buffer_free B) = 1) ∧
      (∀ O ∈ handed_tables cs, s.heap.trace.count (Event.objects_free O) = 1) ∧
      (∀ id, s.heap.trace.count (Event.string_alloc id) ≤ 1 ∧
        s.heap.trace.count (Event.string_free id)
          = s.heap.trace.count (Event.string_alloc id)) ∧
      s.heap.trace.count Event.slice_free = 1) ∧
    (∀ r, s.self = Handle.live r →
      s.heap.trace.count Event.slice_free = 0 ∧
      (∀ B, s.heap.trace.count (Event.buffer_free B) ≤ 1) ∧
      (∀ O, s.heap.trace.count (Event.objects_free O) ≤ 1) ∧
      (∀ id, s.heap.trace.count (Event.string_free id)
        ≤ s.heap.trace.count (Event.string_alloc id) ∧
        s.heap.trace.count (Event.string_alloc id) ≤ 1) ∧
      (∀ B, r.data.buffer = some B → s.heap.trace.count (Event.buffer_free B) = 0) ∧
      (∀ O, r.data.objects = some O → s.heap.trace.count (Event.objects_free O) = 0) ∧
      (∀ id, r.iface2 = some id → s.heap.trace.count (Event.string_free id) = 0)) := by
  have hI := run_balanced ops p hw cs [] [] _ rets s (new_balanced reg p pid euid) hrun
    (by simpa using hB) (by simpa using hO)
  simp only [List.nil_append] at hI
  obtain ⟨self, heap⟩ := s
  constructor
  · intro hf
    simp only at hf
    subst hf
    obtain ⟨⟨⟨_, b2, _, _⟩, ⟨_, o2, _, _⟩, ⟨_, s2, _, s4⟩, hA1, hA0⟩, hsl⟩ := hI
    dsimp only at b2 o2 s2 s4 hA1 hA0 hsl ⊢
    refine ⟨fun B hB1 => b2 B hB1 (by simp), fun O hO1 => o2 O hO1 (by simp), ?_, hsl⟩
    intro id
    by_cases hid : id < heap.next
    · rw [hA1 id hid, s2 id hid (by simp)]
      exact ⟨le_refl _, rfl⟩
    · rw [hA0 id hid, s4 id hid]
      exact ⟨Nat.zero_le _, rfl⟩
  · intro r hl
    simp only at hl
    subst hl
    obtain ⟨_, _, ⟨⟨_, b2, b3, b4⟩, ⟨_, o2, o3, o4⟩, ⟨_, s2, s3, s4⟩, hA1, hA0⟩, hsl⟩ := hI
    dsimp only at b2 b3 b4 o2 o3 o4 s2 s3 s4 hA1 hA0 hsl ⊢
    refine ⟨hsl, ?_, ?_, ?_, b3, o3, s3⟩
    · intro B
      by_cases hm : B ∈ handed_buffers cs
      · by_cases hh : r.data.buffer = some B
        · rw [b3 B hh]
          exact Nat.zero_le _
        · rw [b2 B hm hh]
      · rw [b4 B hm]
        exact Nat.zero_le _
    · intro O
      by_cases hm : O ∈ handed_tables cs
      · by_cases hh : r.data.objects = some O
        · rw [o3 O hh]
          exact Nat.zero_le _
        · rw [o2 O hm hh]
      · rw [o4 O hm]
        exact Nat.zero_le _
    · intro id
      by_cases hid : id < heap.next
      · rw [hA1 id hid]
        by_cases hh : r.iface2 = some id
        · rw [s3 id hh]
          exact ⟨Nat.zero_le _, le_refl _⟩
        · rw [s2 id hid hh]
          exact ⟨le_refl _, le_refl _⟩
      · rw [hA0 id hid, s4 id hid]
        exact ⟨le_refl _, Nat.zero_le _⟩

/-- The accounting at work: with the protocol that writes the slot on every
invocation, the life `new; set_data(B1, O1); set_data(B2, O2); unref` ends with
the request freed once, both buffers and both tables released once each, and
the one string that was allocated released once. -/
theorem accounting_under_slot_discipline_witness :
    (always_writes_slot sample_protocol ∨ never_writes_slot sample_protocol) ∧
    (handed_buffers [Call.set_data (some scenario_buffer) (some scenario_objects),
      Call.set_data (some short_buffer) (some short_objects), Call.unref]).Nodup ∧
    (handed_tables [Call.set_data (some scenario_buffer) (some scenario_objects),
      Call.set_data (some short_buffer) (some short_objects), Call.unref]).Nodup ∧
    (∀ B ∈ [scenario_buffer, short_buffer],
      List.count (Event.buffer_free B)
        [Event.registry_ref 9,
          Event.read_rpc_header
            (whole_buffer_reader (some 9) scenario_buffer (some scenario_objects)),
          Event.string_alloc 0, Event.string_free 0, Event.objects_free scenario_objects,
          Event.buffer_free scenario_buffer,
          Event.read_rpc_header (whole_buffer_reader (some 9) short_buffer (some short_objects)),
          Event.registry_unref 9, Event.buffer_free short_buffer,
          Event.objects_free short_objects, Event.slice_free] = 1) ∧
    (∀ id, List.count (Event.string_alloc id)
        [Event.registry_ref 9,
          Event.read_rpc_header
            (whole_buffer_reader (some 9) scenario_buffer (some scenario_objects)),
          Event.string_alloc 0, Event.string_free 0, Event.objects_free scenario_objects,
          Event.buffer_free scenario_buffer,
          Event.read_rpc_header (whole_buffer_reader (some 9) short_buffer (some short_objects)),
          Event.registry_unref 9, Event.buffer_free short_buffer,
          Event.objects_free short_objects, Event.slice_free] ≤ 1 ∧
      List.count (Event.string_free id)
        [Event.registry_ref 9,
          Event.read_rpc_header
            (whole_buffer_reader (some 9) scenario_buffer (some scenario_objects)),
          Event.string_alloc 0, Event.string_free 0, Event.objects_free scenario_objects,
          Event.buffer_free scenario_buffer,
          Event.read_rpc_header (whole_buffer_reader (some 9) short_buffer (some short_objects)),
          Event.registry_unref 9, Event.buffer_free short_buffer,
          Event.objects_free short_objects, Event.slice_free]
        = List.count (Event.string_alloc id)
        [Event.registry_ref 9,
          Event.read_rpc_header
            (whole_buffer_reader (some 9) scenario_buffer (some scenario_objects)),
          Event.string_alloc 0, Event.string_free 0, Event.objects_free scenario_objects,
          Event.buffer_free scenario_buffer,
          Event.read_rpc_header (whole_buffer_reader (some 9) short_buffer (some short_objects)),
          Event.registry_unref 9, Event.buffer_free short_buffer,
          Event.objects_free short_objects, Event.slice_free]) :=
  ⟨Or.inl sample_protocol_always_writes, by decide, by decide,
   ((accounting_under_slot_discipline sample_ops (some 9) sample_protocol 100 1000
      [Call.set_data (some scenario_buffer) (some scenario_objects),
        Call.set_data (some short_buffer) (some short_objects), Call.unref]
      [Ret.unit, Ret.unit, Ret.unit]
      { self := Handle.freed,
        heap := { trace := [Event.registry_ref 9,
                    Event.read_rpc_header
                      (whole_buffer_reader (some 9) scenario_buffer (some scenario_objects)),
                    Event.string_alloc 0, Event.string_free 0,
                    Event.objects_free scenario_objects, Event.buffer_free scenario_buffer,
                    Event.read_rpc_header
                      (whole_buffer_reader (some 9) short_buffer (some short_objects)),
                    Event.registry_unref 9, Event.buffer_free short_buffer,
                    Event.objects_free short_objects, Event.slice_free],
                  next := 1 } }
      (Or.inl sample_protocol_always_writes) (by decide) (by decide) rfl).1 rfl).1,
   ((accounting_under_slot_discipline sample_ops (some 9) sample_protocol 100 1000
      [Call.set_data (some scenario_buffer) (some scenario_objects),
        Call.set_data (some short_buffer) (some short_objects), Call.unref]
      [Ret.unit, Ret.unit, Ret.unit]
      { self := Handle.freed,
        heap := { trace := [Event.registry_ref 9,
                    Event.read_rpc_header
                      (whole_buffer_reader (some 9) scenario_buffer (some scenario_objects)),
                    Event.string_alloc 0, Event.string_free 0,
                    Event.objects_free scenario_objects, Event.buffer_free scenario_buffer,
                    Event.read_rpc_header
                      (whole_buffer_reader (some 9) short_buffer (some short_objects)),
                    Event.registry_unref 9, Event.buffer_free short_buffer,
                    Event.objects_free short_objects, Event.slice_free],
                  next := 1 } }
      (Or.inl sample_protocol_always_writes) (by decide) (by decide) rfl).1 rfl).2.2.1⟩

end GBinder
